import Mathlib

/-!
# Training driver of the YOLO object detector (`src/train.cpp`)

A shallow embedding of the parts of `main` in `src/train.cpp` that decide the
properties stated below: the checkpoint block, the coverage filter and the
solarize step of `get_sample`, the mosaic branch of `train_loader`, the option
checks, the step function `train`, the warm-up block, the post-warm-up setup of
the trainer and one iteration of the main training loop.

Conventions.
* `double` values are elements of a linearly ordered field `K` (exact
  arithmetic, no NaN); the definitions are generic in `K` and run on `ℚ`.
  Where the rounding of doubles decides a property, the values that a double
  can take are given by `is_double`.
* `size_t` values are natural numbers and `size_t` arithmetic is reduced
  modulo `2 ^ 64`.
* Calls into dlib (`drectangle`, `linspace`, `dnn_trainer`, the command line
  parser) are modelled by their documented contract.
-/

namespace YoloTrain

/-! ## Scalars -/

/-- The `std::max(a, b)` of the C++ standard library: `b` when `a < b`, else `a`. -/
def std_max {K : Type} [LinearOrder K] (a b : K) : K :=
  if a < b then b else a

/-- The number of values of a `size_t` on the 64-bit targets of the program. -/
def size_t_mod : Nat := 2 ^ 64

/-- Product of two `size_t` values. -/
def size_t_mul (a b : Nat) : Nat := (a * b) % size_t_mod

/-- Difference of two `size_t` values (wraps around below zero). -/
def size_t_sub (a b : Nat) : Nat := (a + (size_t_mod - b % size_t_mod)) % size_t_mod

/-! ## Evaluation and checkpoint block (lines 581-593) -/

/-- The two fields of the result of `compute_metrics` that the checkpoint block reads. -/
structure metrics_details (K : Type) where
  map : K
  weighted_f : K

/-- The pair `best_map`, `best_wf1` kept by `main` and serialized after each evaluation. -/
structure best_metrics (K : Type) where
  best_map : K
  best_wf1 : K

/-- What the checkpoint block did: whether `save_model` was called, and the bests it
left in `best_map`, `best_wf1` (the values it then serializes). -/
structure checkpoint_result (K : Type) where
  saved : Bool
  best : best_metrics K

/-- Lines 581-584: `if (metrics.map > best_map or metrics.weighted_f > best_wf1)
save_model(...); best_map = std::max(metrics.map, best_map);
best_wf1 = std::max(metrics.weighted_f, best_wf1);`. -/
def checkpoint_block {K : Type} [LinearOrder K] (metrics : metrics_details K)
    (b : best_metrics K) : checkpoint_result K :=
  { saved := decide (metrics.map > b.best_map) || decide (metrics.weighted_f > b.best_wf1)
    best := { best_map := std_max metrics.map b.best_map
              best_wf1 := std_max metrics.weighted_f b.best_wf1 } }

/-! ## Boxes and the coverage filter of `get_sample` (lines 378-385) -/

/-- A dlib `drectangle`: left, top, right, bottom. -/
structure drectangle (K : Type) where
  l : K
  t : K
  r : K
  b : K

/-- A dlib `yolo_rect` as `get_sample` builds it: `emplace_back(rect, 1, label)`. -/
structure yolo_rect (K : Type) where
  rect : drectangle K
  detection_confidence : K
  ignore : Bool
  label : String

/-- The two dlib rectangle operations the coverage filter calls. -/
structure rect_ops (K : Type) where
  intersect : drectangle K → drectangle K → drectangle K
  area : drectangle K → K

/-- The `drectangle::is_empty` of dlib. -/
def drectangle.is_empty {K : Type} [LinearOrder K] (x : drectangle K) : Bool :=
  decide (x.t > x.b) || decide (x.l > x.r)

/-- The `drectangle::width` of dlib. -/
def drectangle.width {K : Type} [LinearOrderedField K] (x : drectangle K) : K :=
  if x.is_empty then 0 else x.r - x.l + 1

/-- The `drectangle::height` of dlib. -/
def drectangle.height {K : Type} [LinearOrderedField K] (x : drectangle K) : K :=
  if x.is_empty then 0 else x.b - x.t + 1

/-- The `drectangle::area` of dlib. -/
def drectangle.area {K : Type} [LinearOrderedField K] (x : drectangle K) : K :=
  x.width * x.height

/-- The `drectangle::intersect` of dlib. -/
def drectangle.intersect {K : Type} [LinearOrder K] (x y : drectangle K) : drectangle K :=
  { l := max x.l y.l, t := max x.t y.t, r := min x.r y.r, b := min x.b y.b }

/-- The rectangle operations as dlib implements them. -/
def dlib_rect_ops (K : Type) [LinearOrderedField K] : rect_ops K :=
  { intersect := drectangle.intersect, area := drectangle.area }

/-- The `get_rect(image)` of dlib for an image of `nr` rows and `nc` columns. -/
def get_rect (K : Type) [LinearOrderedField K] (nr nc : Nat) : drectangle K :=
  { l := 0, t := 0, r := (nc : K) - 1, b := (nr : K) - 1 }

/-- The `coverage` computed at line 382 for one box. -/
def box_coverage {K : Type} [LinearOrderedField K] (g : rect_ops K)
    (image_rect : drectangle K) (box : yolo_rect K) : K :=
  g.area (g.intersect box.rect image_rect) / g.area box.rect

/-- Body of the loop at lines 380-385 for one box. -/
def coverage_filter_box {K : Type} [LinearOrderedField K] (g : rect_ops K)
    (image_rect : drectangle K) (min_coverage : K) (box : yolo_rect K) : yolo_rect K :=
  if !box.ignore && decide (box_coverage g image_rect box < min_coverage) then
    { box with ignore := true }
  else box

/-- Lines 379-385: `for (auto& box : result.second)` over the boxes of the sample. -/
def coverage_filter {K : Type} [LinearOrderedField K] (g : rect_ops K)
    (image_rect : drectangle K) (min_coverage : K) (boxes : List (yolo_rect K)) :
    List (yolo_rect K) :=
  boxes.map (coverage_filter_box g image_rect min_coverage)

/-! ## Solarize step of `get_sample` (lines 365-376) -/

/-- A dlib `rgb_pixel`: three `unsigned char` channels, each below 256. -/
structure rgb_pixel where
  red : Nat
  green : Nat
  blue : Nat
deriving DecidableEq, Repr

/-- Conversion of an `int` to `unsigned char`. -/
def to_uchar (i : Int) : Nat := (i % 256).toNat

/-- One channel of lines 369-374: `if (p.red > 128) p.red = 128 - p.red;`, the
subtraction being done on `int` and the result stored in an `unsigned char`. -/
def solarize_channel (v : Nat) : Nat :=
  if v > 128 then to_uchar (128 - (v : Int)) else v

/-- Lines 369-374 for one pixel. -/
def solarize_pixel (p : rgb_pixel) : rgb_pixel :=
  { red := solarize_channel p.red
    green := solarize_channel p.green
    blue := solarize_channel p.blue }

/-- Lines 365-376: `draw` is the value of `rnd.get_random_double()`, `pixels` the pixels
of `result.first` in iteration order. -/
def solarize_step {K : Type} [LinearOrder K] (draw solarize_prob : K)
    (pixels : List rgb_pixel) : List rgb_pixel :=
  if draw < solarize_prob then pixels.map solarize_pixel else pixels

/-! ## Learning-rate schedules (lines 500-501 and 522-524) -/

/-- The `linspace(start, end, num)` of dlib: a row vector of `num` linearly spaced values,
entry `c` being `start + c * (end - start) / (num - 1)` and the last entry `end`. These
are the values in exact arithmetic; the program holds each of them rounded to a double. -/
def linspace {K : Type} [Field K] (start stop : K) (num : Nat) : List K :=
  (List.range num).map fun c : Nat =>
    if c + 1 = num then stop else start + (c : K) * (stop - start) / ((num : K) - 1)

/-- The literal `1e-99` of line 501. -/
def warmup_start_lr (K : Type) [Field K] : K := 1 / 10 ^ 99

/-- Line 501: `linspace(1e-99, learning_rate, warmup_steps)`, in exact arithmetic: the
points of the ramp that the program asks for. The schedule that the program stores has
one double for each of them. -/
def warmup_schedule {K : Type} [Field K] (learning_rate : K) (warmup_steps : Nat) : List K :=
  linspace (warmup_start_lr K) learning_rate warmup_steps

/-- Lines 522-524: `min_learning_rate + 0.5 * (learning_rate - min_learning_rate) *
(1 + cos(linspace(0, cosine_steps, cosine_steps) * pi / cosine_steps))`, element-wise;
`cos` and `pi` are those of the C++ library. -/
def cosine_schedule {K : Type} [Field K] (cos : K → K) (pi : K)
    (learning_rate min_learning_rate : K) (cosine_steps : Nat) : List K :=
  (linspace 0 (cosine_steps : K) cosine_steps).map fun x =>
    min_learning_rate + 1 / 2 * (learning_rate - min_learning_rate) *
      (1 + cos (x * pi / (cosine_steps : K)))

/-! ## The trainer, as far as `main` reads and writes it -/

/-- The fields of dlib's `dnn_trainer` that `main` reads or sets. A setter is modelled
by its effect on the field it is named after; what else dlib updates inside a setter,
and the position inside the schedule, are not modelled. -/
structure dnn_trainer (K : Type) where
  train_one_step_calls : Nat
  test_one_step_calls : Nat
  learning_rate : K
  min_learning_rate : K
  learning_rate_shrink_factor : K
  iterations_without_progress_threshold : Nat
  test_iterations_without_progress_threshold : Nat
  learning_rate_schedule : List K

/-- What the driver did, in order. -/
inductive event where
  | train_one_step
  | test_one_step
  | set_learning_rate_schedule (size : Nat)
  | evaluation (num_steps : Nat)
  | save_model (num_steps : Nat)
deriving DecidableEq, Repr

/-- The mutable state of `main` from line 459 on: the trainer, the `static size_t
train_cnt` of the lambda `train`, the two bests, and the record of what was done. -/
structure loop_state (K : Type) where
  trainer : dnn_trainer K
  train_cnt : Nat
  best : best_metrics K
  log : List event

/-- The values read from the command line and the dataset that the schedule code uses. -/
structure config (K : Type) where
  learning_rate : K
  min_learning_rate : K
  patience : Nat
  cosine_epochs : Nat
  warmup_epochs : Nat
  test_period : Nat
  num_test_images : Nat
  mini_batch_size : Nat

/-- Line 491: `train_dataset.images.size() / trainer.get_mini_batch_size()`; the
division traps when the mini-batch size is zero. -/
def num_steps_per_epoch (num_train_images mini_batch_size : Nat) : Option Nat :=
  if mini_batch_size = 0 then none else some (num_train_images / mini_batch_size)

/-- Line 492: `warmup_epochs * num_steps_per_epoch`. -/
def warmup_steps {K : Type} (cfg : config K) (steps_per_epoch : Nat) : Nat :=
  size_t_mul cfg.warmup_epochs steps_per_epoch

/-- Line 518: `cosine_epochs * num_steps_per_epoch - warmup_steps`. -/
def cosine_steps {K : Type} (cfg : config K) (steps_per_epoch : Nat) : Nat :=
  size_t_sub (size_t_mul cfg.cosine_epochs steps_per_epoch) (warmup_steps cfg steps_per_epoch)

/-! ## The step function `train` (lines 463-489) -/

/-- The call `trainer.train_one_step(images, bboxes)`. -/
def do_train_one_step {K : Type} (s : loop_state K) : loop_state K :=
  { s with
    trainer := { s.trainer with train_one_step_calls := s.trainer.train_one_step_calls + 1 }
    log := s.log ++ [event.train_one_step] }

/-- The call `trainer.test_one_step(images, bboxes)`. -/
def do_test_one_step {K : Type} (s : loop_state K) : loop_state K :=
  { s with
    trainer := { s.trainer with test_one_step_calls := s.trainer.test_one_step_calls + 1 }
    log := s.log ++ [event.test_one_step] }

/-- Lines 463-489: `if (test_period == 0 or ++train_cnt % test_period != 0)` a training
step, else a test step. The increment is not evaluated when `test_period == 0`. The
counter grows by one per call and is taken as unbounded: no run makes `2 ^ 64` calls. The
mini-batch handed to the trainer is not part of this state. -/
def train {K : Type} (test_period : Nat) (s : loop_state K) : loop_state K :=
  if test_period = 0 then do_train_one_step s
  else
    let s1 := { s with train_cnt := s.train_cnt + 1 }
    if s1.train_cnt % test_period ≠ 0 then do_train_one_step s1 else do_test_one_step s1

/-! ## Warm-up (lines 496-511) -/

/-- Lines 498-506: on a fresh trainer the ramp is installed. -/
def warmup_install {K : Type} [Field K] (cfg : config K) (steps_per_epoch : Nat)
    (s : loop_state K) : loop_state K :=
  if s.trainer.train_one_step_calls = 0 then
    let schedule := warmup_schedule cfg.learning_rate (warmup_steps cfg steps_per_epoch)
    { s with
      trainer := { s.trainer with learning_rate_schedule := schedule }
      log := s.log ++ [event.set_learning_rate_schedule schedule.length] }
  else s

/-- Lines 507-508: `while (trainer.get_train_one_step_calls() < warmup_steps) train();`,
run for at most `fuel` calls of `train`; `none` when the loop has not ended by then. -/
def warmup_loop {K : Type} (test_period wsteps : Nat) : Nat → loop_state K →
    Option (loop_state K)
  | 0, s => if s.trainer.train_one_step_calls < wsteps then none else some s
  | fuel + 1, s =>
    if s.trainer.train_one_step_calls < wsteps then
      warmup_loop test_period wsteps fuel (train test_period s)
    else some s

/-- Lines 496-511. -/
def warmup_block {K : Type} [Field K] (fuel : Nat) (cfg : config K) (steps_per_epoch : Nat)
    (s : loop_state K) : Option (loop_state K) :=
  if s.trainer.train_one_step_calls < warmup_steps cfg steps_per_epoch then
    warmup_loop cfg.test_period (warmup_steps cfg steps_per_epoch) fuel
      (warmup_install cfg steps_per_epoch s)
  else some s

/-! ## Setup of the trainer after the warm-up (lines 514-552) -/

/-- Lines 516-527: the cosine schedule is installed. -/
def cosine_setup {K : Type} [Field K] (cos : K → K) (pi : K) (cfg : config K)
    (steps_per_epoch : Nat) (t : dnn_trainer K) : dnn_trainer K :=
  { t with
    learning_rate_schedule :=
      cosine_schedule cos pi cfg.learning_rate cfg.min_learning_rate
        (cosine_steps cfg steps_per_epoch) }

/-- Lines 530-544: learning rate, minimum, shrink factor `0.1` and the two
iterations-without-progress thresholds. The mini-batch size is not zero here, line 491
having divided by it. -/
def steady_setup {K : Type} [Field K] (cfg : config K) (steps_per_epoch : Nat)
    (t : dnn_trainer K) : dnn_trainer K :=
  let t1 := { t with
    learning_rate := cfg.learning_rate
    min_learning_rate := cfg.min_learning_rate
    learning_rate_shrink_factor := 1 / 10 }
  if cfg.test_period > 0 then
    { t1 with
      iterations_without_progress_threshold :=
        size_t_mul (size_t_mul cfg.patience cfg.test_period) steps_per_epoch
      test_iterations_without_progress_threshold :=
        size_t_mul cfg.patience cfg.num_test_images / cfg.mini_batch_size }
  else
    { t1 with
      iterations_without_progress_threshold := size_t_mul cfg.patience steps_per_epoch
      test_iterations_without_progress_threshold := 0 }

/-- Lines 514-552: the setup runs only when the steps taken equal the warm-up steps;
a trainer resumed elsewhere is left as restored. -/
def post_warmup_setup {K : Type} [Field K] (cos : K → K) (pi : K) (cfg : config K)
    (steps_per_epoch : Nat) (t : dnn_trainer K) : dnn_trainer K :=
  if t.train_one_step_calls = warmup_steps cfg steps_per_epoch then
    if cfg.cosine_epochs > 0 then cosine_setup cos pi cfg steps_per_epoch t
    else steady_setup cfg steps_per_epoch t
  else t

/-! ## One iteration of the main training loop (lines 560-599) -/

/-- Lines 563-597 for the metrics that `compute_metrics` returned. -/
def evaluation_block {K : Type} [LinearOrder K] (metrics : metrics_details K)
    (num_steps : Nat) (s : loop_state K) : loop_state K :=
  let r := checkpoint_block metrics s.best
  { s with
    best := r.best
    log := s.log ++ [event.evaluation num_steps] ++
      (if r.saved then [event.save_model num_steps] else []) }

/-- Line 561: `num_steps > 0 and num_steps % num_steps_per_epoch == 0`; the remainder
is evaluated only when `num_steps > 0` and traps when `num_steps_per_epoch` is zero. -/
def epoch_boundary (num_steps steps_per_epoch : Nat) : Option Bool :=
  if num_steps > 0 then
    if steps_per_epoch = 0 then none else some (decide (num_steps % steps_per_epoch = 0))
  else some false

/-- Lines 560-599: the body of the `while` of the main loop; `metrics` is what
`compute_metrics` returns if it is called in this iteration. -/
def main_loop_iteration {K : Type} [LinearOrder K] (test_period steps_per_epoch : Nat)
    (metrics : metrics_details K) (s : loop_state K) : Option (loop_state K) :=
  let num_steps := s.trainer.train_one_step_calls
  match epoch_boundary num_steps steps_per_epoch with
  | none => none
  | some true => some (train test_period (evaluation_block metrics num_steps s))
  | some false => some (train test_period s)

/-- The evaluation passes recorded in a log, by the step count they ran at. -/
def evaluations (log : List event) : List Nat :=
  log.filterMap fun e =>
    match e with
    | event.evaluation n => some n
    | _ => none

/-! ## Option checks at startup (lines 71-83) -/

/-- The options of the command line that lines 71-83 look at, each with the argument
it was given, `none` when the option is absent. -/
structure command_line (K : Type) where
  iou_ignore : Option K
  iou_anchor : Option K
  mirror : Option K
  mosaic : Option K
  crop : Option K
  perspective : Option K
  coverage : Option K
  color_offset : Option K
  gamma : Option K
  color : Option K
  blur : Option K
  solarize : Option K
  shift : Option K
  patience : Option Nat
  cosine_epochs : Option Nat

/-- The errors the checks of dlib's command line parser throw. -/
inductive cmd_line_check_error where
  | out_of_range (option : String)
  | incompatible_options (first second : String)
  | missing_parent_option (parent sub : String)
deriving DecidableEq, Repr

/-- dlib `check_option_arg_range<double>(name, first, last)`: throws when the option is
present with an argument outside `[first, last]`. -/
def check_option_arg_range {K : Type} [LinearOrder K] (name : String) (arg : Option K)
    (first last : K) : Except cmd_line_check_error Unit :=
  match arg with
  | none => Except.ok ()
  | some v =>
    if v < first ∨ last < v then Except.error (cmd_line_check_error.out_of_range name)
    else Except.ok ()

/-- The check of line 79, whose upper end is `std::numeric_limits<double>::max()`: only
the lower end can fail. -/
def check_option_arg_lower {K : Type} [LinearOrder K] (name : String) (arg : Option K)
    (first : K) : Except cmd_line_check_error Unit :=
  match arg with
  | none => Except.ok ()
  | some v =>
    if v < first then Except.error (cmd_line_check_error.out_of_range name)
    else Except.ok ()

/-- dlib `check_incompatible_options(a, b)`: throws when both options are present. -/
def check_incompatible_options (a b : String) (a_given b_given : Bool) :
    Except cmd_line_check_error Unit :=
  if a_given && b_given then Except.error (cmd_line_check_error.incompatible_options a b)
  else Except.ok ()

/-- dlib `check_sub_option(parent, sub)`: throws when `sub` is present without `parent`. -/
def check_sub_option (parent sub : String) (parent_given sub_given : Bool) :
    Except cmd_line_check_error Unit :=
  if sub_given && !parent_given then
    Except.error (cmd_line_check_error.missing_parent_option parent sub)
  else Except.ok ()

/-- Lines 71-83, in order. An error thrown here leaves `main` through its `catch`
(line 620), long before the loader threads are created at lines 420-429. -/
def option_checks {K : Type} [LinearOrderedField K] (c : command_line K) :
    Except cmd_line_check_error Unit := do
  check_option_arg_range "iou-ignore" c.iou_ignore 0 1
  check_option_arg_range "iou-anchor" c.iou_anchor 0 1
  check_option_arg_range "mirror" c.mirror 0 1
  check_option_arg_range "mosaic" c.mosaic 0 1
  check_option_arg_range "crop" c.crop 0 1
  check_option_arg_range "perspective" c.perspective 0 1
  check_option_arg_range "coverage" c.coverage 0 1
  check_option_arg_range "color-offset" c.color_offset 0 1
  check_option_arg_lower "gamma" c.gamma 0
  check_option_arg_range "color" c.color 0 1
  check_option_arg_range "blur" c.blur 0 1
  check_incompatible_options "patience" "cosine-epochs" c.patience.isSome c.cosine_epochs.isSome
  check_sub_option "crop" "shift" c.crop.isSome c.shift.isSome

/-- Line 108: `get_option(parser, "solarize", 0.1)`. -/
def solarize_prob {K : Type} [Field K] (c : command_line K) : K :=
  c.solarize.getD (1 / 10)

/-- A command line that gives none of the checked options. -/
def no_options (K : Type) : command_line K :=
  { iou_ignore := none, iou_anchor := none, mirror := none, mosaic := none, crop := none,
    perspective := none, coverage := none, color_offset := none, gamma := none,
    color := none, blur := none, solarize := none, shift := none, patience := none,
    cosine_epochs := none }

/-! ## Mosaic branch of `train_loader` (lines 392-412) -/

/-- A conversion that a coordinate may go through inside dlib's rectangle helpers.
`scale_rect` and `translate_rect` exist for `drectangle` (real coordinates, nothing is
converted) and for `rectangle` (`long` coordinates: a `drectangle` argument is rounded to
the nearest integers on the way in, and a scaled coordinate is rounded again). Which
overloads the calls of line 407 select is decided inside dlib, so the placement of a box is
defined for any conversion with the two properties below, which the identity and the
rounding to the nearest integer both have. -/
structure coord_conv (K : Type) [LinearOrderedField K] where
  conv : K → K
  nonneg : ∀ v : K, 0 ≤ v → 0 ≤ conv v
  le_nat : ∀ (v : K) (k : Nat), v ≤ (k : K) → conv v ≤ (k : K)

/-- No conversion: the `drectangle` overloads. -/
def coord_conv.exact (K : Type) [LinearOrderedField K] : coord_conv K :=
  { conv := fun v => v
    nonneg := fun _ h => h
    le_nat := fun _ _ h => h }

/-- Rounding to the nearest integer, `floor(v + 0.5)`: the conversion of a `drectangle`
to a `rectangle`. -/
def coord_conv.nearest (K : Type) [LinearOrderedField K] [FloorRing K] : coord_conv K :=
  { conv := fun v => ((⌊v + 1 / 2⌋ : Int) : K)
    nonneg := fun v h => by
      have h1 : (0 : Int) ≤ ⌊v + 1 / 2⌋ := Int.floor_nonneg.mpr (by linarith)
      show (0 : K) ≤ ((⌊v + 1 / 2⌋ : Int) : K)
      exact_mod_cast h1
    le_nat := fun v k h => by
      have h1 : ⌊v + 1 / 2⌋ < (k : Int) + 1 := by
        rw [Int.floor_lt]
        push_cast
        linarith
      have h2 : ⌊v + 1 / 2⌋ ≤ (k : Int) := by omega
      show ((⌊v + 1 / 2⌋ : Int) : K) ≤ (k : K)
      exact_mod_cast h2 }

/-- The conversion applied to the four coordinates of a rectangle. -/
def drectangle.convert {K : Type} [LinearOrderedField K] (c : coord_conv K)
    (x : drectangle K) : drectangle K :=
  { l := c.conv x.l, t := c.conv x.t, r := c.conv x.r, b := c.conv x.b }

/-- dlib `scale_rect(rect, scale)`: every coordinate is multiplied by `scale`. -/
def scale_rect {K : Type} [Field K] (rect : drectangle K) (scale : K) : drectangle K :=
  { l := rect.l * scale, t := rect.t * scale, r := rect.r * scale, b := rect.b * scale }

/-- dlib `translate_rect(rect, x, y)`: the rectangle moved by `(x, y)`. -/
def translate_rect {K : Type} [Field K] (rect : drectangle K) (x y : K) : drectangle K :=
  { l := rect.l + x, t := rect.t + y, r := rect.r + x, b := rect.b + y }

/-- Line 395: `const long s = image_size * scale;` with `scale = 0.5`, the product
truncated to `long`. -/
def mosaic_s (image_size : Nat) : Nat := image_size / 2

/-- Line 398: the quadrant origins `{0, 0}, {0, s}, {s, 0}, {s, s}`. -/
def mosaic_pos (image_size : Nat) : List (Nat × Nat) :=
  [(0, 0), (0, mosaic_s image_size), (mosaic_s image_size, 0),
   (mosaic_s image_size, mosaic_s image_size)]

/-- Lines 405-409 for one box of the tile placed at `(x, y)`:
`box.rect = translate_rect(scale_rect(box.rect, scale), x, y)`, with the conversion `pre`
on the way into `scale_rect` and `post` on the way out of it. -/
def mosaic_box {K : Type} [LinearOrderedField K] (pre post : coord_conv K) (x y : Nat)
    (box : yolo_rect K) : yolo_rect K :=
  { box with
    rect := translate_rect ((scale_rect (box.rect.convert pre) (1 / 2)).convert post)
      (x : K) (y : K) }

/-- The mosaic sample: the size of its image (`set_size(image_size, image_size)`; the
pixels written by `resize_image` are not modelled) and its boxes. -/
structure mosaic_result (K : Type) where
  nr : Nat
  nc : Nat
  boxes : List (yolo_rect K)

/-- Lines 394-411; `t0`, `t1`, `t2`, `t3` are the box lists of the results of the four
calls of `get_sample()`, in call order. -/
def mosaic_sample {K : Type} [LinearOrderedField K] (pre post : coord_conv K)
    (image_size : Nat) (t0 t1 t2 t3 : List (yolo_rect K)) : mosaic_result K :=
  { nr := image_size
    nc := image_size
    boxes := ((mosaic_pos image_size).zip [t0, t1, t2, t3]).flatMap fun q =>
      q.2.map (mosaic_box pre post q.1.1 q.1.2) }

/-- Every coordinate of the rectangle lies in `[lo, hi]`. -/
def drectangle.within {K : Type} [LinearOrder K] (x : drectangle K) (lo hi : K) : Prop :=
  (lo ≤ x.l ∧ x.l ≤ hi) ∧ (lo ≤ x.t ∧ x.t ≤ hi) ∧ (lo ≤ x.r ∧ x.r ≤ hi) ∧
    (lo ≤ x.b ∧ x.b ≤ hi)

instance drectangle.within_decidable {K : Type} [LinearOrder K] (x : drectangle K)
    (lo hi : K) : Decidable (x.within lo hi) := by
  unfold drectangle.within
  infer_instance

/-! ## The step function `train` with its queues (lines 459-489) -/

/-- A dlib `matrix<rgb_pixel>`: rows, columns and the pixels. -/
structure rgb_image where
  nr : Nat
  nc : Nat
  data : List rgb_pixel
deriving DecidableEq, Repr

/-- An element of the pipes `train_data` and `test_data`:
`std::pair<rgb_image, std::vector<yolo_rect>>`. -/
structure sample (K : Type) where
  first : rgb_image
  second : List (yolo_rect K)

/-- What a call of `train` handed to the trainer: `test_one_step(images, bboxes)` when
`test` is set, `train_one_step(images, bboxes)` otherwise. -/
structure trainer_call (K : Type) where
  test : Bool
  images : List rgb_image
  bboxes : List (List (yolo_rect K))

/-- The state that the lambda `train` works on: the state of the loop, the vectors
`images` and `bboxes` that it captures by reference, the two pipes, each given by the
samples its loaders deliver in the order in which `dequeue` returns them, and the record of
the batches handed to the trainer. -/
structure step_state (K : Type) where
  loop : loop_state K
  images : List rgb_image
  bboxes : List (List (yolo_rect K))
  train_data : List (sample K)
  test_data : List (sample K)
  handed : List (trainer_call K)

/-- The loops of lines 471-476 and 481-486 on one pipe:
`while (images.size() < trainer.get_mini_batch_size())` a sample is dequeued and its two
parts are pushed back. `dequeue` blocks on an empty pipe: the result is `none` when the
pipe delivers no further sample while the batch is not full. The result is the rest of the
pipe and the two vectors. -/
def dequeue_batch {K : Type} (mini_batch_size : Nat) :
    List (sample K) → List rgb_image → List (List (yolo_rect K)) →
      Option (List (sample K) × List rgb_image × List (List (yolo_rect K)))
  | [], images, bboxes =>
    if images.length < mini_batch_size then none else some ([], images, bboxes)
  | smp :: rest, images, bboxes =>
    if images.length < mini_batch_size then
      dequeue_batch mini_batch_size rest (images ++ [smp.first]) (bboxes ++ [smp.second])
    else some (smp :: rest, images, bboxes)

/-- Lines 463-489 with the pipes: `images.clear(); bboxes.clear();`, then the batch is
drawn from `train_data` and handed to `train_one_step`, or drawn from `test_data` and
handed to `test_one_step`. -/
def train_batch {K : Type} (mini_batch_size test_period : Nat) (s : step_state K) :
    Option (step_state K) :=
  if test_period = 0 then
    (dequeue_batch mini_batch_size s.train_data [] []).map fun r =>
      { loop := do_train_one_step s.loop, images := r.2.1, bboxes := r.2.2,
        train_data := r.1, test_data := s.test_data,
        handed := s.handed ++ [{ test := false, images := r.2.1, bboxes := r.2.2 }] }
  else
    let l1 := { s.loop with train_cnt := s.loop.train_cnt + 1 }
    if l1.train_cnt % test_period ≠ 0 then
      (dequeue_batch mini_batch_size s.train_data [] []).map fun r =>
        { loop := do_train_one_step l1, images := r.2.1, bboxes := r.2.2,
          train_data := r.1, test_data := s.test_data,
          handed := s.handed ++ [{ test := false, images := r.2.1, bboxes := r.2.2 }] }
    else
      (dequeue_batch mini_batch_size s.test_data [] []).map fun r =>
        { loop := do_test_one_step l1, images := r.2.1, bboxes := r.2.2,
          train_data := s.train_data, test_data := r.1,
          handed := s.handed ++ [{ test := true, images := r.2.1, bboxes := r.2.2 }] }

/-- The first `k` calls of `train`, one after the other. -/
def train_batches {K : Type} (mini_batch_size test_period : Nat) :
    Nat → step_state K → Option (step_state K)
  | 0, s => some s
  | k + 1, s =>
    (train_batches mini_batch_size test_period k s).bind
      (train_batch mini_batch_size test_period)

/-- The negation of the condition of line 469, `test_period == 0 or
++train_cnt % test_period != 0`, for the value that `train_cnt` has before the call: the
call takes the branch of the test step. -/
def takes_test_branch (test_period train_cnt : Nat) : Bool :=
  decide (test_period ≠ 0) && decide ((train_cnt + 1) % test_period = 0)

/-- Lines 424-429: the number of threads put into `test_data_loaders`. -/
def num_test_data_loaders (test_period : Nat) : Nat :=
  if test_period > 0 then 2 else 0

/-! ## Runs of the main training loop (lines 558-600) -/

/-- The iterations of the main loop, one for each entry of `ms`, the metrics that
`compute_metrics` would return in that iteration. Whether the `while` goes on is decided by
the learning rate that dlib keeps, so a run is given by the number of its iterations. -/
def main_loop_run {K : Type} [LinearOrder K] (test_period steps_per_epoch : Nat) :
    List (metrics_details K) → loop_state K → Option (loop_state K)
  | [], s => some s
  | m :: ms, s =>
    (main_loop_iteration test_period steps_per_epoch m s).bind
      (main_loop_run test_period steps_per_epoch ms)

/-! ## Reading the minimum coverage (lines 21-62 and 107) -/

/-- The names given to `parser.add_option` at lines 21-62. -/
def declared_options : List String :=
  ["architecture", "name", "size", "test", "visualize", "batch-gpu", "warmup",
   "cosine-epochs", "gpus", "iou-ignore", "iou-anchor", "lambda-obj", "lambda-box",
   "lambda-cls", "learning-rate", "min-learning-rate", "momentum", "patience",
   "test-period", "tune", "weight-decay", "workers", "angle", "blur", "color",
   "color-offset", "crop", "gamma", "coverage", "mirror", "mosaic", "perspective", "shift",
   "solarize", "h", "help"]

/-- The argument given on the command line to the option `name`, for the options with a
real argument that `command_line` holds; `none` when the option is absent. -/
def option_argument {K : Type} (c : command_line K) (name : String) : Option K :=
  if name = "iou-ignore" then c.iou_ignore
  else if name = "iou-anchor" then c.iou_anchor
  else if name = "mirror" then c.mirror
  else if name = "mosaic" then c.mosaic
  else if name = "crop" then c.crop
  else if name = "perspective" then c.perspective
  else if name = "coverage" then c.coverage
  else if name = "color-offset" then c.color_offset
  else if name = "gamma" then c.gamma
  else if name = "color" then c.color
  else if name = "blur" then c.blur
  else if name = "solarize" then c.solarize
  else if name = "shift" then c.shift
  else none

/-- The error raised when the parser is asked for an option that was never added. -/
inductive fatal_error where
  | undefined_option (name : String)
deriving DecidableEq, Repr

/-- dlib `get_option(parser, name, default_value)`: the argument of the option when it is
given, `default_value` when it is absent. The option must be one the parser defines;
asking for another one breaks the requirement of `parser.option(name)`, which dlib reports
as a fatal error. -/
def get_option {K : Type} (c : command_line K) (name : String) (default_value : K) :
    Except fatal_error K :=
  if name ∈ declared_options then Except.ok ((option_argument c name).getD default_value)
  else Except.error (fatal_error.undefined_option name)

/-- Line 107: `get_option(parser, "min-coverage", 0.75)`, the value passed to
`cropper.set_min_object_coverage` (line 273) and compared with the coverage of each box
(line 383). -/
def min_coverage {K : Type} [Field K] (c : command_line K) : Except fatal_error K :=
  get_option c "min-coverage" (3 / 4)

/-! ## Doubles -/

theorem std_max_eq_max {K : Type} [LinearOrder K] (a b : K) : std_max a b = max a b := by
  unfold std_max
  split_ifs with h
  · exact (max_eq_right h.le).symm
  · exact (max_eq_left (not_lt.mp h)).symm

/-- C1: at an evaluation with metrics `(map, wf1)` and stored bests, `save_model` is
called if and only if `map > best_map` or `wf1 > best_wf1`, and the bests left behind are
`max map best_map` and `max wf1 best_wf1`, each on its own; with bests `(0.50, 0.60)` and
metrics `(0.55, 0.55)` the model is saved and the bests become `(0.55, 0.60)`. -/
theorem checkpoint_block_saves_iff_improved {K : Type} [LinearOrder K]
    (metrics : metrics_details K) (b : best_metrics K) :
    ((checkpoint_block metrics b).saved = true ↔
        (metrics.map > b.best_map ∨ metrics.weighted_f > b.best_wf1)) ∧
      (checkpoint_block metrics b).best.best_map = max metrics.map b.best_map ∧
      (checkpoint_block metrics b).best.best_wf1 = max metrics.weighted_f b.best_wf1 ∧
      ((checkpoint_block (⟨55 / 100, 55 / 100⟩ : metrics_details ℚ) ⟨50 / 100, 60 / 100⟩).saved
          = true ∧
        (checkpoint_block (⟨55 / 100, 55 / 100⟩ : metrics_details ℚ)
          ⟨50 / 100, 60 / 100⟩).best.best_map = 55 / 100 ∧
        (checkpoint_block (⟨55 / 100, 55 / 100⟩ : metrics_details ℚ)
          ⟨50 / 100, 60 / 100⟩).best.best_wf1 = 60 / 100) := by
  refine ⟨?_, ?_, ?_, ?_, ?_, ?_⟩
  · simp [checkpoint_block]
  · simp [checkpoint_block, std_max_eq_max]
  · simp [checkpoint_block, std_max_eq_max]
  · simp [checkpoint_block]; norm_num
  · simp only [checkpoint_block, std_max_eq_max]; norm_num
  · simp only [checkpoint_block, std_max_eq_max]; norm_num

theorem coverage_filter_box_fields {K : Type} [LinearOrderedField K] (g : rect_ops K)
    (image_rect : drectangle K) (min_coverage : K) (box : yolo_rect K) :
    (coverage_filter_box g image_rect min_coverage box).rect = box.rect ∧
      (coverage_filter_box g image_rect min_coverage box).label = box.label ∧
      (coverage_filter_box g image_rect min_coverage box).detection_confidence
        = box.detection_confidence ∧
      ((coverage_filter_box g image_rect min_coverage box).ignore = true ↔
        (box.ignore = true ∨ box_coverage g image_rect box < min_coverage)) := by
  unfold coverage_filter_box
  split_ifs with h
  · simp only [Bool.and_eq_true, Bool.not_eq_true', decide_eq_true_eq] at h
    simp [h.2]
  · simp only [Bool.and_eq_true, Bool.not_eq_true', decide_eq_true_eq, not_and] at h
    refine ⟨rfl, rfl, rfl, ?_⟩
    constructor
    · intro hi
      exact Or.inl hi
    · rintro (hi | hc)
      · exact hi
      · by_contra hne
        exact h (by simpa using hne) hc

/-- C2: the coverage filter keeps the length and the order of the box list and changes
nothing but the ignore flag: the box at each position keeps its rectangle, label and
confidence, and, when its area is positive, it is ignored afterwards if and only if it was
ignored before or `area(box ∩ image_rect) / area(box) < min_coverage`. -/
theorem coverage_filter_only_sets_ignore {K : Type} [LinearOrderedField K] (g : rect_ops K)
    (image_rect : drectangle K) (min_coverage : K) (boxes : List (yolo_rect K)) :
    (coverage_filter g image_rect min_coverage boxes).length = boxes.length ∧
      ∀ (i : Nat) (box : yolo_rect K), boxes[i]? = some box →
        ∃ out : yolo_rect K,
          (coverage_filter g image_rect min_coverage boxes)[i]? = some out ∧
          out.rect = box.rect ∧ out.label = box.label ∧
          out.detection_confidence = box.detection_confidence ∧
          (0 < g.area box.rect →
            (out.ignore = true ↔
              (box.ignore = true ∨
                g.area (g.intersect box.rect image_rect) / g.area box.rect < min_coverage))) := by
  refine ⟨by simp [coverage_filter], ?_⟩
  intro i box hbox
  refine ⟨coverage_filter_box g image_rect min_coverage box, ?_, ?_⟩
  · simp [coverage_filter, hbox]
  · obtain ⟨h1, h2, h3, h4⟩ := coverage_filter_box_fields g image_rect min_coverage box
    exact ⟨h1, h2, h3, fun _ => h4⟩

/-- The coverage filter with dlib's rectangle operations on an 8 x 8 image and
`min_coverage = 3 / 4`: the box `[0, 9] x [0, 9]` is covered to `64 / 100` and becomes
ignored, the box `[0, 7] x [0, 7]` is fully covered and stays as it is. -/
theorem coverage_filter_example :
    (coverage_filter (dlib_rect_ops ℚ) (get_rect ℚ 8 8) (3 / 4)
        [⟨⟨0, 0, 9, 9⟩, 1, false, "a"⟩, ⟨⟨0, 0, 7, 7⟩, 1, false, "b"⟩]).map
        (fun box => (box.ignore, box.label))
      = [(true, "a"), (false, "b")] := by
  simp only [coverage_filter, coverage_filter_box, box_coverage, dlib_rect_ops, get_rect,
    drectangle.intersect, drectangle.area, drectangle.width, drectangle.height,
    drectangle.is_empty, List.map_cons, List.map_nil]
  norm_num

theorem evaluations_append (l1 l2 : List event) :
    evaluations (l1 ++ l2) = evaluations l1 ++ evaluations l2 := by
  simp [evaluations]

theorem evaluations_train {K : Type} (test_period : Nat) (s : loop_state K) :
    evaluations (train test_period s).log = evaluations s.log := by
  unfold train
  by_cases h0 : test_period = 0
  · simp [h0, do_train_one_step, evaluations]
  · by_cases h1 : (s.train_cnt + 1) % test_period = 0
    · simp [h0, h1, do_test_one_step, evaluations]
    · simp [h0, h1, do_train_one_step, evaluations]

theorem evaluations_evaluation_block {K : Type} [LinearOrder K] (metrics : metrics_details K)
    (n : Nat) (s : loop_state K) :
    evaluations (evaluation_block metrics n s).log = evaluations s.log ++ [n] := by
  simp only [evaluation_block]
  by_cases h : (checkpoint_block metrics s.best).saved = true
  · simp [h, evaluations]
  · simp [h, evaluations]

/-- C3: one iteration of the main training loop, entered with `steps` completed training
steps, runs the evaluation and checkpoint procedure (once, for that step count) exactly
when `steps > 0` and `steps mod steps_per_epoch = 0`; otherwise no evaluation is run in it.
With `steps_per_epoch > 0` the iteration always completes. -/
theorem main_loop_iteration_evaluates_iff {K : Type} [LinearOrder K]
    (test_period steps_per_epoch : Nat) (metrics : metrics_details K) (s : loop_state K) :
    ((∃ s1, main_loop_iteration test_period steps_per_epoch metrics s = some s1 ∧
          evaluations s1.log = evaluations s.log ++ [s.trainer.train_one_step_calls]) ↔
        (s.trainer.train_one_step_calls > 0 ∧
          s.trainer.train_one_step_calls % steps_per_epoch = 0)) ∧
      (¬ (s.trainer.train_one_step_calls > 0 ∧
            s.trainer.train_one_step_calls % steps_per_epoch = 0) →
        ∀ s1, main_loop_iteration test_period steps_per_epoch metrics s = some s1 →
          evaluations s1.log = evaluations s.log) ∧
      (0 < steps_per_epoch →
        ∃ s1, main_loop_iteration test_period steps_per_epoch metrics s = some s1) := by
  unfold main_loop_iteration epoch_boundary
  by_cases h0 : s.trainer.train_one_step_calls > 0
  · by_cases hs : steps_per_epoch = 0
    · subst hs
      simp [h0]
      omega
    · by_cases hm : s.trainer.train_one_step_calls % steps_per_epoch = 0
      · simp [h0, hs, hm, evaluations_train, evaluations_evaluation_block]
      · simp [h0, hs, hm, evaluations_train]
  · simp [h0, evaluations_train]

theorem solarize_channel_le (v : Nat) (h : v ≤ 128) : solarize_channel v = v := by
  unfold solarize_channel
  simp [Nat.not_lt.mpr h]

theorem solarize_channel_gt (v : Nat) (h : 128 < v) :
    solarize_channel v < 256 ∧ (solarize_channel v : Int) ≡ 128 - (v : Int) [ZMOD 256] ∧
      (v < 256 → solarize_channel v = 384 - v) := by
  unfold solarize_channel to_uchar
  simp only [gt_iff_lt, h, if_true]
  have hnn : 0 ≤ (128 - (v : Int)) % 256 := Int.emod_nonneg _ (by norm_num)
  have hlt : (128 - (v : Int)) % 256 < 256 := Int.emod_lt_of_pos _ (by norm_num)
  refine ⟨by omega, ?_, ?_⟩
  · rw [Int.toNat_of_nonneg hnn]
    exact Int.mod_modEq _ _
  · intro hv
    omega

/-- C9: when the solarize step fires, every pixel is replaced, in place, by the pixel
whose red, green and blue channels are each computed from that channel alone: a value
`v ≤ 128` stays `v`, and a value `v > 128` becomes the 8-bit value congruent to `128 - v`
modulo 256 (which is `384 - v` for `v < 256`). -/
theorem solarize_step_channelwise {K : Type} [LinearOrder K] (draw solarize_prob : K)
    (pixels : List rgb_pixel) (hfire : draw < solarize_prob) :
    (solarize_step draw solarize_prob pixels).length = pixels.length ∧
      ∀ (i : Nat) (p : rgb_pixel), pixels[i]? = some p →
        ∃ q : rgb_pixel, (solarize_step draw solarize_prob pixels)[i]? = some q ∧
          (∀ ch : rgb_pixel → Nat,
            (ch = rgb_pixel.red ∨ ch = rgb_pixel.green ∨ ch = rgb_pixel.blue) →
              (ch p ≤ 128 → ch q = ch p) ∧
              (128 < ch p →
                ch q < 256 ∧ (ch q : Int) ≡ 128 - (ch p : Int) [ZMOD 256] ∧
                  (ch p < 256 → ch q = 384 - ch p))) := by
  unfold solarize_step
  simp only [hfire, if_true]
  refine ⟨by simp, ?_⟩
  intro i p hp
  refine ⟨solarize_pixel p, by simp [hp], ?_⟩
  intro ch hch
  rcases hch with h | h | h <;> subst h <;>
    exact ⟨solarize_channel_le _, solarize_channel_gt _⟩

/-- C9, at a concrete input: the pixel `(200, 128, 129)` becomes `(184, 128, 255)`. -/
theorem solarize_step_channelwise_witness :
    ((1 : ℚ) / 20 < 1 / 10) ∧
      solarize_step ((1 : ℚ) / 20) (1 / 10) [⟨200, 128, 129⟩, ⟨0, 255, 130⟩]
        = [⟨184, 128, 255⟩, ⟨0, 129, 254⟩] ∧
      (solarize_step ((1 : ℚ) / 20) (1 / 10) [⟨200, 128, 129⟩, ⟨0, 255, 130⟩]).length = 2 :=
  ⟨by norm_num, by
    have h : ((1 : ℚ) / 20 < 1 / 10) := by norm_num
    simp only [solarize_step, h, if_true]
    decide,
   (solarize_step_channelwise ((1 : ℚ) / 20) (1 / 10) [⟨200, 128, 129⟩, ⟨0, 255, 130⟩]
      (by norm_num)).1⟩

/-! ### Setup after the warm-up: steady decay -/

/-- C4, as stated, fails: with `patience = 3`, `steps_per_epoch = 100` and
`test_period = 2` the training threshold set in steady-decay mode is `600`, not
`3 * 100`; and with `patience = 2 ^ 64 - 1` (the `size_t` read from `--patience -1`),
`steps_per_epoch = 2` and `test_period = 0` the product wraps to `2 ^ 64 - 2`. -/
theorem steady_threshold_counterexample :
    (post_warmup_setup (fun _ => (0 : ℚ)) 0
        { learning_rate := 1 / 1000, min_learning_rate := 1 / 1000000, patience := 3,
          cosine_epochs := 0, warmup_epochs := 3, test_period := 2, num_test_images := 80,
          mini_batch_size := 8 } 100
        { train_one_step_calls := 300, test_one_step_calls := 0, learning_rate := 1 / 1000,
          min_learning_rate := 1 / 100000, learning_rate_shrink_factor := 1,
          iterations_without_progress_threshold := 2000,
          test_iterations_without_progress_threshold := 500,
          learning_rate_schedule := [] }).iterations_without_progress_threshold = 600 ∧
      600 ≠ 3 * 100 ∧
      (post_warmup_setup (fun _ => (0 : ℚ)) 0
        { learning_rate := 1 / 1000, min_learning_rate := 1 / 1000000,
          patience := 2 ^ 64 - 1, cosine_epochs := 0, warmup_epochs := 0, test_period := 0,
          num_test_images := 0, mini_batch_size := 8 } 2
        { train_one_step_calls := 0, test_one_step_calls := 0, learning_rate := 1 / 1000,
          min_learning_rate := 1 / 100000, learning_rate_shrink_factor := 1,
          iterations_without_progress_threshold := 2000,
          test_iterations_without_progress_threshold := 500,
          learning_rate_schedule := [] }).iterations_without_progress_threshold
        = 2 ^ 64 - 2 ∧
      2 ^ 64 - 2 ≠ (2 ^ 64 - 1) * 2 := by
  refine ⟨?_, by decide, ?_, by decide⟩
  · simp [post_warmup_setup, steady_setup, warmup_steps, size_t_mul, size_t_mod]
  · simp [post_warmup_setup, steady_setup, warmup_steps, size_t_mul, size_t_mod]

/-- C4, amended: in steady-decay mode (`cosine_epochs = 0`, the setup being reached with
the steps taken equal to the warm-up steps) the shrink factor is `0.1`, and the training
iterations-without-progress threshold is the `size_t` product `patience * steps_per_epoch`
when `test_period = 0` and `patience * test_period * steps_per_epoch` when
`test_period > 0`; each is the plain product whenever that is below `2 ^ 64`. -/
theorem steady_setup_thresholds {K : Type} [Field K] (cos : K → K) (pi : K) (cfg : config K)
    (steps_per_epoch : Nat) (t : dnn_trainer K) (hcos : cfg.cosine_epochs = 0)
    (hreach : t.train_one_step_calls = warmup_steps cfg steps_per_epoch) :
    (post_warmup_setup cos pi cfg steps_per_epoch t).learning_rate_shrink_factor = 1 / 10 ∧
      (cfg.test_period = 0 →
        (post_warmup_setup cos pi cfg steps_per_epoch t).iterations_without_progress_threshold
            = (cfg.patience * steps_per_epoch) % 2 ^ 64 ∧
        (cfg.patience * steps_per_epoch < 2 ^ 64 →
          (post_warmup_setup cos pi cfg steps_per_epoch t).iterations_without_progress_threshold
            = cfg.patience * steps_per_epoch)) ∧
      (cfg.test_period > 0 →
        (post_warmup_setup cos pi cfg steps_per_epoch t).iterations_without_progress_threshold
            = ((cfg.patience * cfg.test_period) % 2 ^ 64 * steps_per_epoch) % 2 ^ 64 ∧
        (cfg.patience * cfg.test_period * steps_per_epoch < 2 ^ 64 →
          (post_warmup_setup cos pi cfg steps_per_epoch t).iterations_without_progress_threshold
            = cfg.patience * cfg.test_period * steps_per_epoch)) := by
  have hpost : post_warmup_setup cos pi cfg steps_per_epoch t
      = steady_setup cfg steps_per_epoch t := by
    simp [post_warmup_setup, hreach, hcos]
  rw [hpost]
  refine ⟨?_, ?_, ?_⟩
  · unfold steady_setup
    split_ifs <;> rfl
  · intro h0
    have h : (steady_setup cfg steps_per_epoch t).iterations_without_progress_threshold
        = (cfg.patience * steps_per_epoch) % 2 ^ 64 := by
      simp [steady_setup, h0, size_t_mul, size_t_mod]
    exact ⟨h, fun hlt => by rw [h, Nat.mod_eq_of_lt hlt]⟩
  · intro h0
    have h : (steady_setup cfg steps_per_epoch t).iterations_without_progress_threshold
        = ((cfg.patience * cfg.test_period) % 2 ^ 64 * steps_per_epoch) % 2 ^ 64 := by
      simp [steady_setup, h0, size_t_mul, size_t_mod]
    refine ⟨h, fun hlt => ?_⟩
    rw [h, Nat.mod_mul_mod, Nat.mod_eq_of_lt hlt]

/-- C4, amended, at concrete inputs: `patience = 3`, `steps_per_epoch = 100`,
`test_period = 2` gives the shrink factor `1 / 10` and the threshold `3 * 2 * 100`. -/
theorem steady_setup_thresholds_witness :
    (post_warmup_setup (fun _ => (0 : ℚ)) 0
        { learning_rate := 1 / 1000, min_learning_rate := 1 / 1000000, patience := 3,
          cosine_epochs := 0, warmup_epochs := 3, test_period := 2, num_test_images := 80,
          mini_batch_size := 8 } 100
        { train_one_step_calls := 300, test_one_step_calls := 0, learning_rate := 1 / 1000,
          min_learning_rate := 1 / 100000, learning_rate_shrink_factor := 1,
          iterations_without_progress_threshold := 2000,
          test_iterations_without_progress_threshold := 500,
          learning_rate_schedule := [] }).learning_rate_shrink_factor = 1 / 10 ∧
      (post_warmup_setup (fun _ => (0 : ℚ)) 0
        { learning_rate := 1 / 1000, min_learning_rate := 1 / 1000000, patience := 3,
          cosine_epochs := 0, warmup_epochs := 3, test_period := 2, num_test_images := 80,
          mini_batch_size := 8 } 100
        { train_one_step_calls := 300, test_one_step_calls := 0, learning_rate := 1 / 1000,
          min_learning_rate := 1 / 100000, learning_rate_shrink_factor := 1,
          iterations_without_progress_threshold := 2000,
          test_iterations_without_progress_threshold := 500,
          learning_rate_schedule := [] }).iterations_without_progress_threshold
        = 3 * 2 * 100 :=
  have h := steady_setup_thresholds (fun _ => (0 : ℚ)) 0
    { learning_rate := 1 / 1000, min_learning_rate := 1 / 1000000, patience := 3,
      cosine_epochs := 0, warmup_epochs := 3, test_period := 2, num_test_images := 80,
      mini_batch_size := 8 } 100
    { train_one_step_calls := 300, test_one_step_calls := 0, learning_rate := 1 / 1000,
      min_learning_rate := 1 / 100000, learning_rate_shrink_factor := 1,
      iterations_without_progress_threshold := 2000,
      test_iterations_without_progress_threshold := 500,
      learning_rate_schedule := [] } rfl (by decide)
  ⟨h.1, (h.2.2 (by decide)).2 (by decide)⟩

/-! ### Option checks -/

theorem check_option_arg_range_error {K : Type} [LinearOrder K] (name : String) (v : K)
    (first last : K) (h : v < first ∨ last < v) :
    check_option_arg_range name (some v) first last
      = Except.error (cmd_line_check_error.out_of_range name) := by
  simp [check_option_arg_range, h]

theorem check_option_arg_range_cases {K : Type} [LinearOrder K] (name : String)
    (arg : Option K) (first last : K) :
    check_option_arg_range name arg first last = Except.ok () ∨
      check_option_arg_range name arg first last
        = Except.error (cmd_line_check_error.out_of_range name) := by
  unfold check_option_arg_range
  cases arg with
  | none => exact Or.inl rfl
  | some v =>
    by_cases h : v < first ∨ last < v
    · right; simp [h]
    · left; simp [h]

theorem check_option_arg_lower_cases {K : Type} [LinearOrder K] (name : String)
    (arg : Option K) (first : K) :
    check_option_arg_lower name arg first = Except.ok () ∨
      check_option_arg_lower name arg first
        = Except.error (cmd_line_check_error.out_of_range name) := by
  unfold check_option_arg_lower
  cases arg with
  | none => exact Or.inl rfl
  | some v =>
    by_cases h : v < first
    · right; simp [h]
    · left; simp [h]

/-- The part of the startup validation that the code does perform: a mirror, mosaic, crop,
perspective, color-offset or blur probability outside `[0, 1]`, or patience given together
with cosine-epochs, makes the option checks throw. -/
theorem option_checks_reject {K : Type} [LinearOrderedField K] (c : command_line K)
    (h : (∃ v, (c.mirror = some v ∨ c.mosaic = some v ∨ c.crop = some v ∨
            c.perspective = some v ∨ c.color_offset = some v ∨ c.blur = some v) ∧
          (v < 0 ∨ 1 < v)) ∨
        (c.patience.isSome = true ∧ c.cosine_epochs.isSome = true)) :
    ∃ e, option_checks c = Except.error e := by
  unfold option_checks
  rcases check_option_arg_range_cases "iou-ignore" c.iou_ignore 0 1 with h1 | h1 <;>
    rw [h1] <;> [skip; exact ⟨_, rfl⟩]
  rcases check_option_arg_range_cases "iou-anchor" c.iou_anchor 0 1 with h2 | h2 <;>
    rw [h2] <;> [skip; exact ⟨_, rfl⟩]
  rcases check_option_arg_range_cases "mirror" c.mirror 0 1 with h3 | h3 <;>
    rw [h3] <;> [skip; exact ⟨_, rfl⟩]
  rcases check_option_arg_range_cases "mosaic" c.mosaic 0 1 with h4 | h4 <;>
    rw [h4] <;> [skip; exact ⟨_, rfl⟩]
  rcases check_option_arg_range_cases "crop" c.crop 0 1 with h5 | h5 <;>
    rw [h5] <;> [skip; exact ⟨_, rfl⟩]
  rcases check_option_arg_range_cases "perspective" c.perspective 0 1 with h6 | h6 <;>
    rw [h6] <;> [skip; exact ⟨_, rfl⟩]
  rcases check_option_arg_range_cases "coverage" c.coverage 0 1 with h7 | h7 <;>
    rw [h7] <;> [skip; exact ⟨_, rfl⟩]
  rcases check_option_arg_range_cases "color-offset" c.color_offset 0 1 with h8 | h8 <;>
    rw [h8] <;> [skip; exact ⟨_, rfl⟩]
  rcases check_option_arg_lower_cases "gamma" c.gamma 0 with h9 | h9 <;>
    rw [h9] <;> [skip; exact ⟨_, rfl⟩]
  rcases check_option_arg_range_cases "color" c.color 0 1 with h10 | h10 <;>
    rw [h10] <;> [skip; exact ⟨_, rfl⟩]
  rcases check_option_arg_range_cases "blur" c.blur 0 1 with h11 | h11 <;>
    rw [h11] <;> [skip; exact ⟨_, rfl⟩]
  rcases h with ⟨v, hv, hout⟩ | ⟨hp, hc⟩
  · exfalso
    rcases hv with hv | hv | hv | hv | hv | hv
    · rw [hv, check_option_arg_range_error _ _ _ _ hout] at h3
      exact absurd h3 (by simp)
    · rw [hv, check_option_arg_range_error _ _ _ _ hout] at h4
      exact absurd h4 (by simp)
    · rw [hv, check_option_arg_range_error _ _ _ _ hout] at h5
      exact absurd h5 (by simp)
    · rw [hv, check_option_arg_range_error _ _ _ _ hout] at h6
      exact absurd h6 (by simp)
    · rw [hv, check_option_arg_range_error _ _ _ _ hout] at h8
      exact absurd h8 (by simp)
    · rw [hv, check_option_arg_range_error _ _ _ _ hout] at h11
      exact absurd h11 (by simp)
  · exact ⟨cmd_line_check_error.incompatible_options "patience" "cosine-epochs", by
      simp [check_incompatible_options, hp, hc]; rfl⟩

/-- C8, the failing input: the command line whose only option is `--solarize 1.5` passes
all option checks, and the solarize probability then in use is `3 / 2`, outside `[0, 1]`;
the same argument given to `--mirror` is rejected. -/
theorem solarize_out_of_range_accepted :
    option_checks ({ no_options ℚ with solarize := some (3 / 2) }) = Except.ok () ∧
      option_checks ({ no_options ℚ with mirror := some (3 / 2) })
        = Except.error (cmd_line_check_error.out_of_range "mirror") ∧
      solarize_prob ({ no_options ℚ with solarize := some (3 / 2) }) = 3 / 2 ∧
      ¬ ((0 : ℚ) ≤ 3 / 2 ∧ (3 / 2 : ℚ) ≤ 1) := by
  refine ⟨?_, ?_, ?_, by norm_num⟩
  · rfl
  · have h : option_checks ({ no_options ℚ with mirror := some (3 / 2) })
        = check_option_arg_range "mirror" (some (3 / 2 : ℚ)) 0 1 >>= fun _ => Except.ok () := rfl
    rw [h, check_option_arg_range_error _ _ _ _ (Or.inr (by norm_num))]
    rfl
  · simp [solarize_prob, no_options]

/-! ### Mosaic -/

theorem mosaic_coord_bounds {K : Type} [LinearOrderedField K] (pre post : coord_conv K)
    (n x : Nat) (c : K) (hx : x ≤ mosaic_s n) (h0 : 0 ≤ c) (h1 : c ≤ (n : K) - 1) :
    0 ≤ post.conv (pre.conv c * (1 / 2)) + (x : K) ∧
      post.conv (pre.conv c * (1 / 2)) + (x : K) ≤ ((2 * mosaic_s n : Nat) : K) := by
  have hn : 1 ≤ n := by
    by_contra hn
    have : n = 0 := by omega
    subst this
    simp only [Nat.cast_zero] at h1
    linarith
  have hc1 : c ≤ ((n - 1 : Nat) : K) := by
    rw [Nat.cast_sub hn]
    simpa using h1
  have hp0 : 0 ≤ pre.conv c := pre.nonneg c h0
  have hp1 : pre.conv c ≤ ((n - 1 : Nat) : K) := pre.le_nat c (n - 1) hc1
  have hhalf : ((n - 1 : Nat) : K) ≤ 2 * ((mosaic_s n : Nat) : K) := by
    have : n - 1 ≤ 2 * mosaic_s n := by
      unfold mosaic_s
      omega
    exact_mod_cast this
  have hq0 : 0 ≤ post.conv (pre.conv c * (1 / 2)) := post.nonneg _ (by linarith)
  have hq1 : post.conv (pre.conv c * (1 / 2)) ≤ ((mosaic_s n : Nat) : K) :=
    post.le_nat _ _ (by linarith)
  have hx0 : (0 : K) ≤ (x : K) := Nat.cast_nonneg x
  have hx1 : (x : K) ≤ ((mosaic_s n : Nat) : K) := by exact_mod_cast hx
  refine ⟨by linarith, ?_⟩
  push_cast
  linarith

theorem mosaic_box_within {K : Type} [LinearOrderedField K] (pre post : coord_conv K)
    (n x y : Nat) (box : yolo_rect K) (hx : x ≤ mosaic_s n) (hy : y ≤ mosaic_s n)
    (hbox : box.rect.within 0 ((n : K) - 1)) :
    (mosaic_box pre post x y box).rect.within 0 ((2 * mosaic_s n : Nat) : K) := by
  obtain ⟨⟨h1, h2⟩, ⟨h3, h4⟩, ⟨h5, h6⟩, ⟨h7, h8⟩⟩ := hbox
  simp only [mosaic_box, translate_rect, scale_rect, drectangle.convert, drectangle.within]
  exact ⟨mosaic_coord_bounds pre post n x _ hx h1 h2,
    mosaic_coord_bounds pre post n y _ hy h3 h4,
    mosaic_coord_bounds pre post n x _ hx h5 h6,
    mosaic_coord_bounds pre post n y _ hy h7 h8⟩

theorem mosaic_pos_le (image_size : Nat) (q : Nat × Nat) (hq : q ∈ mosaic_pos image_size) :
    q.1 ≤ mosaic_s image_size ∧ q.2 ≤ mosaic_s image_size := by
  simp only [mosaic_pos, List.mem_cons, List.mem_singleton, List.not_mem_nil, or_false] at hq
  rcases hq with h | h | h | h <;> subst h <;> simp

theorem drectangle.within_mono {K : Type} [LinearOrder K] (x : drectangle K) (lo hi hi2 : K)
    (h : x.within lo hi) (hle : hi ≤ hi2) : x.within lo hi2 := by
  obtain ⟨⟨h1, h2⟩, ⟨h3, h4⟩, ⟨h5, h6⟩, ⟨h7, h8⟩⟩ := h
  exact ⟨⟨h1, h2.trans hle⟩, ⟨h3, h4.trans hle⟩, ⟨h5, h6.trans hle⟩, ⟨h7, h8.trans hle⟩⟩

/-- C10, as stated, fails: with `image_size = 512` a box that fills the tile of the last
quadrant, `[0, 511] x [0, 511]`, lies within the bounds of its tile, and the right
coordinate of its image in the mosaic is beyond `511`: it is `511 / 2 + 256 = 1023 / 2`
when no coordinate is rounded, and `512` when the scaled coordinate is rounded, whether or
not the coordinate was rounded before the scaling too. -/
theorem mosaic_box_exceeds_canvas :
    (⟨⟨0, 0, 511, 511⟩, 1, false, "a"⟩ : yolo_rect ℚ).rect.within 0 ((512 : Nat) - 1) ∧
      (mosaic_sample (coord_conv.exact ℚ) (coord_conv.exact ℚ) 512 [] [] []
          [⟨⟨0, 0, 511, 511⟩, 1, false, "a"⟩]).boxes.map (fun box => box.rect.r)
        = [1023 / 2] ∧
      (mosaic_sample (coord_conv.exact ℚ) (coord_conv.nearest ℚ) 512 [] [] []
          [⟨⟨0, 0, 511, 511⟩, 1, false, "a"⟩]).boxes.map (fun box => box.rect.r)
        = [512] ∧
      (mosaic_sample (coord_conv.nearest ℚ) (coord_conv.nearest ℚ) 512 [] [] []
          [⟨⟨0, 0, 511, 511⟩, 1, false, "a"⟩]).boxes.map (fun box => box.rect.r)
        = [512] ∧
      ((511 : ℚ) < 1023 / 2 ∧ (511 : ℚ) < 512) := by
  have hf1 : ⌊(511 : ℚ) + 1 / 2⌋ = 511 := by
    rw [Int.floor_eq_iff]
    constructor <;> norm_num
  have hf2 : ⌊(511 : ℚ) * (1 / 2) + 1 / 2⌋ = 256 := by
    rw [Int.floor_eq_iff]
    constructor <;> norm_num
  refine ⟨?_, ?_, ?_, ?_, by norm_num, by norm_num⟩
  · simp only [drectangle.within]
    norm_num
  · simp only [mosaic_sample, mosaic_pos, mosaic_s, mosaic_box, translate_rect, scale_rect,
      drectangle.convert, coord_conv.exact, List.zip_cons_cons, List.zip_nil_right,
      List.flatMap_cons, List.flatMap_nil, List.map_nil, List.map_cons, List.nil_append,
      List.append_nil]
    norm_num
  · simp only [mosaic_sample, mosaic_pos, mosaic_s, mosaic_box, translate_rect, scale_rect,
      drectangle.convert, coord_conv.exact, coord_conv.nearest, List.zip_cons_cons,
      List.zip_nil_right, List.flatMap_cons, List.flatMap_nil, List.map_nil, List.map_cons,
      List.nil_append, List.append_nil, hf2]
    norm_num
  · simp only [mosaic_sample, mosaic_pos, mosaic_s, mosaic_box, translate_rect, scale_rect,
      drectangle.convert, coord_conv.nearest, List.zip_cons_cons,
      List.zip_nil_right, List.flatMap_cons, List.flatMap_nil, List.map_nil, List.map_cons,
      List.nil_append, List.append_nil, hf1, Int.cast_ofNat, hf2]
    norm_num

/-- C10, amended: for every `image_size` and every four tiles whose boxes lie within
`[0, image_size - 1]` in both directions, the mosaic image is `image_size x image_size`,
its boxes are those of the four tiles, and every coordinate of every box lies within
`[0, image_size]`; it lies within `[0, image_size - 1]` when `image_size` is odd. This
holds whichever of dlib's overloads place the box. -/
theorem mosaic_sample_bounds {K : Type} [LinearOrderedField K] (pre post : coord_conv K)
    (image_size : Nat) (t0 t1 t2 t3 : List (yolo_rect K))
    (h : ∀ t ∈ [t0, t1, t2, t3], ∀ box ∈ t, box.rect.within 0 ((image_size : K) - 1)) :
    (mosaic_sample pre post image_size t0 t1 t2 t3).nr = image_size ∧
      (mosaic_sample pre post image_size t0 t1 t2 t3).nc = image_size ∧
      (mosaic_sample pre post image_size t0 t1 t2 t3).boxes.length
        = t0.length + t1.length + t2.length + t3.length ∧
      (∀ box ∈ (mosaic_sample pre post image_size t0 t1 t2 t3).boxes,
        box.rect.within 0 (image_size : K)) ∧
      (image_size % 2 = 1 →
        ∀ box ∈ (mosaic_sample pre post image_size t0 t1 t2 t3).boxes,
          box.rect.within 0 ((image_size : K) - 1)) := by
  have hbound : ∀ box ∈ (mosaic_sample pre post image_size t0 t1 t2 t3).boxes,
      box.rect.within 0 ((2 * mosaic_s image_size : Nat) : K) := by
    intro box hbox
    simp only [mosaic_sample, List.mem_flatMap, List.mem_map] at hbox
    obtain ⟨q, hq, b, hb, rfl⟩ := hbox
    have hle := mosaic_pos_le image_size q.1 (List.of_mem_zip hq).1
    exact mosaic_box_within pre post image_size q.1.1 q.1.2 b hle.1 hle.2
      (h q.2 (List.of_mem_zip hq).2 b hb)
  refine ⟨rfl, rfl, ?_, ?_, ?_⟩
  · simp [mosaic_sample, mosaic_pos]
    omega
  · intro box hbox
    refine drectangle.within_mono _ _ _ _ (hbound box hbox) ?_
    have : 2 * mosaic_s image_size ≤ image_size := by
      unfold mosaic_s
      omega
    exact_mod_cast this
  · intro hodd box hbox
    refine drectangle.within_mono _ _ _ _ (hbound box hbox) ?_
    have : 2 * mosaic_s image_size + 1 = image_size := by
      unfold mosaic_s
      omega
    have hc : ((2 * mosaic_s image_size : Nat) : K) + 1 = (image_size : K) := by
      exact_mod_cast this
    linarith

/-- C10, amended, at a concrete input: `image_size = 512`, the box `[0, 511] x [0, 511]`
in the last tile, and rounding of the scaled coordinates. -/
theorem mosaic_sample_bounds_witness :
    (mosaic_sample (coord_conv.exact ℚ) (coord_conv.nearest ℚ) 512 [] [] []
        [⟨⟨0, 0, 511, 511⟩, 1, false, "a"⟩]).nr = 512 ∧
      ∀ box ∈ (mosaic_sample (coord_conv.exact ℚ) (coord_conv.nearest ℚ) 512 [] [] []
            [⟨⟨0, 0, 511, 511⟩, 1, false, "a"⟩]).boxes,
          box.rect.within 0 ((512 : Nat) : ℚ) :=
  have hw := mosaic_sample_bounds (coord_conv.exact ℚ) (coord_conv.nearest ℚ) 512 [] [] []
    [⟨⟨0, 0, 511, 511⟩, 1, false, "a"⟩]
    (by
      intro t ht box hbox
      simp only [List.mem_cons, List.mem_singleton, List.not_mem_nil, or_false] at ht
      rcases ht with rfl | rfl | rfl | rfl
      · simp at hbox
      · simp at hbox
      · simp at hbox
      · simp only [List.mem_singleton] at hbox
        subst hbox
        simp only [drectangle.within]
        norm_num)
  ⟨hw.1, hw.2.2.2.1⟩

/-! ### The step function and the warm-up loop -/

theorem train_train_step {K : Type} (tp : Nat) (s : loop_state K)
    (h : tp = 0 ∨ (s.train_cnt + 1) % tp ≠ 0) :
    (train tp s).trainer.train_one_step_calls = s.trainer.train_one_step_calls + 1 ∧
      (train tp s).trainer.learning_rate_schedule = s.trainer.learning_rate_schedule ∧
      (train tp s).best = s.best ∧
      (train tp s).log = s.log ++ [event.train_one_step] ∧
      (tp ≠ 0 → (train tp s).train_cnt = s.train_cnt + 1) := by
  unfold train
  by_cases h0 : tp = 0
  · simp [h0, do_train_one_step]
  · have h1 : (s.train_cnt + 1) % tp ≠ 0 := h.resolve_left h0
    simp [h0, h1, do_train_one_step]

theorem train_test_step {K : Type} (tp : Nat) (s : loop_state K)
    (h0 : tp ≠ 0) (h1 : (s.train_cnt + 1) % tp = 0) :
    (train tp s).trainer.train_one_step_calls = s.trainer.train_one_step_calls ∧
      (train tp s).trainer.learning_rate_schedule = s.trainer.learning_rate_schedule ∧
      (train tp s).best = s.best ∧
      (train tp s).log = s.log ++ [event.test_one_step] ∧
      (train tp s).train_cnt = s.train_cnt + 1 := by
  unfold train
  simp [h0, h1, do_test_one_step]

theorem warmup_loop_succ {K : Type} (tp ws fuel : Nat) (s : loop_state K) :
    warmup_loop tp ws (fuel + 1) s =
      if s.trainer.train_one_step_calls < ws then warmup_loop tp ws fuel (train tp s)
      else some s := rfl

theorem warmup_loop_done {K : Type} (tp ws fuel : Nat) (s : loop_state K)
    (h : ¬ s.trainer.train_one_step_calls < ws) : warmup_loop tp ws fuel s = some s := by
  cases fuel with
  | zero => simp [warmup_loop, h]
  | succ f => simp [warmup_loop, h]

/-- The warm-up loop ends: when `test_period` is not 1, a trainer that is `d` training
steps short of `ws` reaches exactly `ws` steps within `2 * d` calls of `train`; the calls
are `d` training steps (and the test steps between them), and neither the installed
schedule nor the bests change. -/
theorem warmup_loop_reaches {K : Type} (tp ws : Nat) (htp : tp ≠ 1) :
    ∀ (d fuel : Nat) (s : loop_state K), s.trainer.train_one_step_calls + d = ws →
      2 * d ≤ fuel →
      ∃ s1, warmup_loop tp ws fuel s = some s1 ∧ s1.trainer.train_one_step_calls = ws ∧
        s1.trainer.learning_rate_schedule = s.trainer.learning_rate_schedule ∧
        s1.best = s.best ∧
        ∃ l, s1.log = s.log ++ l ∧ l.count event.train_one_step = d ∧
          ∀ e ∈ l, e = event.train_one_step ∨ e = event.test_one_step := by
  intro d
  induction d with
  | zero =>
    intro fuel s hs _
    refine ⟨s, warmup_loop_done tp ws fuel s (by omega), by omega, rfl, rfl, [], by simp, rfl, ?_⟩
    intro e he
    simp at he
  | succ d ih =>
    intro fuel s hs hfuel
    obtain ⟨f, rfl⟩ : ∃ f, fuel = f + 2 := ⟨fuel - 2, by omega⟩
    have hlt : s.trainer.train_one_step_calls < ws := by omega
    rw [warmup_loop_succ, if_pos hlt]
    by_cases hstep : tp = 0 ∨ (s.train_cnt + 1) % tp ≠ 0
    · obtain ⟨c1, c2, c3, c4, _⟩ := train_train_step tp s hstep
      obtain ⟨s1, e1, e2, e3, e4, l, e5, e6, e7⟩ := ih (f + 1) (train tp s) (by omega) (by omega)
      refine ⟨s1, e1, e2, e3.trans c2, e4.trans c3, event.train_one_step :: l, ?_, ?_, ?_⟩
      · rw [e5, c4]
        simp
      · simp [e6]
      · intro e he
        rcases List.mem_cons.mp he with h | h
        · exact Or.inl h
        · exact e7 e h
    · have h0 : tp ≠ 0 := fun h => hstep (Or.inl h)
      have h1 : (s.train_cnt + 1) % tp = 0 := by
        by_contra h
        exact hstep (Or.inr h)
      obtain ⟨c1, c2, c3, c4, c5⟩ := train_test_step tp s h0 h1
      have hlt2 : (train tp s).trainer.train_one_step_calls < ws := by omega
      rw [warmup_loop_succ, if_pos hlt2]
      have h2 : ((train tp s).train_cnt + 1) % tp ≠ 0 := by
        rw [c5, Nat.add_mod, h1]
        have h1lt : 1 < tp := by omega
        simp [Nat.mod_eq_of_lt h1lt]
      obtain ⟨b1, b2, b3, b4, _⟩ := train_train_step tp (train tp s) (Or.inr h2)
      obtain ⟨s1, e1, e2, e3, e4, l, e5, e6, e7⟩ :=
        ih f (train tp (train tp s)) (by omega) (by omega)
      refine ⟨s1, e1, e2, (e3.trans b2).trans c2, (e4.trans b3).trans c3,
        event.test_one_step :: event.train_one_step :: l, ?_, ?_, ?_⟩
      · rw [e5, b4, c4]
        simp
      · simp [e6]
      · intro e he
        rcases List.mem_cons.mp he with h | h
        · exact Or.inr h
        · rcases List.mem_cons.mp h with h | h
          · exact Or.inl h
          · exact e7 e h

/-- With `test_period = 1` every call of `train` is a test step, so a warm-up loop that
is entered never ends. -/
theorem warmup_loop_test_period_one {K : Type} (ws : Nat) :
    ∀ (fuel : Nat) (s : loop_state K), s.trainer.train_one_step_calls < ws →
      warmup_loop 1 ws fuel s = none := by
  intro fuel
  induction fuel with
  | zero =>
    intro s hs
    simp [warmup_loop, hs]
  | succ f ih =>
    intro s hs
    rw [warmup_loop_succ, if_pos hs]
    apply ih
    have h := (train_test_step 1 s (by decide) (Nat.mod_one _)).1
    omega

/-- C6, as stated, fails: with `warmup_epochs = 2` and `steps_per_epoch = 100` a trainer
resumed at 150 steps enters the warm-up block, which runs 50 further training steps, up
to 200 steps. -/
theorem resume_at_150_runs_warmup_steps :
    ∃ s1 : loop_state ℚ,
      warmup_block 50
        ({ learning_rate := 1 / 1000, min_learning_rate := 1 / 1000000, patience := 3,
           cosine_epochs := 0, warmup_epochs := 2, test_period := 0, num_test_images := 0,
           mini_batch_size := 8 } : config ℚ) 100
        { trainer :=
            { train_one_step_calls := 150, test_one_step_calls := 0,
              learning_rate := 3 / 4000, min_learning_rate := 1 / 100000,
              learning_rate_shrink_factor := 1, iterations_without_progress_threshold := 2000,
              test_iterations_without_progress_threshold := 500,
              learning_rate_schedule := [] },
          train_cnt := 0, best := ⟨0, 0⟩, log := [] } = some s1 ∧
      s1.trainer.train_one_step_calls = 200 ∧
      s1.log = List.replicate 50 event.train_one_step ∧
      s1.log ≠ [] := by
  refine ⟨_, rfl, ?_, ?_, ?_⟩
  · rfl
  · rfl
  · exact fun h => absurd (congrArg List.length h) (by decide)

/-- C6, amended: with `warmup_epochs = 2` and `steps_per_epoch = 100`, a trainer resumed
at 150 steps gets no new warm-up ramp (the schedule it was restored with stays, nothing
but training and test steps is done), but the warm-up is not skipped: when `test_period`
is not 1 the warm-up loop runs the remaining 50 training steps and ends at 200 steps,
the count at which the post-warm-up setup is made. -/
theorem resume_at_150_finishes_warmup {K : Type} [Field K] (cfg : config K)
    (s : loop_state K) (fuel : Nat) (hw : cfg.warmup_epochs = 2)
    (hs : s.trainer.train_one_step_calls = 150) (htp : cfg.test_period ≠ 1)
    (hfuel : 100 ≤ fuel) :
    ∃ s1, warmup_block fuel cfg 100 s = some s1 ∧
      s1.trainer.train_one_step_calls = 200 ∧
      s1.trainer.train_one_step_calls = warmup_steps cfg 100 ∧
      s1.trainer.learning_rate_schedule = s.trainer.learning_rate_schedule ∧
      ∃ l, s1.log = s.log ++ l ∧ l.count event.train_one_step = 50 ∧
        ∀ e ∈ l, e = event.train_one_step ∨ e = event.test_one_step := by
  have hws : warmup_steps cfg 100 = 200 := by
    simp [warmup_steps, size_t_mul, size_t_mod, hw]
  have hinst : warmup_install cfg 100 s = s := by
    simp [warmup_install, hs]
  obtain ⟨s1, e1, e2, e3, _, l, e5, e6, e7⟩ :=
    warmup_loop_reaches cfg.test_period 200 htp 50 fuel s (by omega) (by omega)
  refine ⟨s1, ?_, e2, by rw [hws, e2], e3, l, e5, e6, e7⟩
  simp only [warmup_block, hws, hs, hinst]
  simpa using e1

/-- C6, amended, at a concrete input: the default `test_period = 0`. -/
theorem resume_at_150_finishes_warmup_witness :
    ∃ s1 : loop_state ℚ,
      warmup_block 100
        ({ learning_rate := 1 / 1000, min_learning_rate := 1 / 1000000, patience := 3,
           cosine_epochs := 0, warmup_epochs := 2, test_period := 0, num_test_images := 0,
           mini_batch_size := 8 } : config ℚ) 100
        { trainer :=
            { train_one_step_calls := 150, test_one_step_calls := 0,
              learning_rate := 3 / 4000, min_learning_rate := 1 / 100000,
              learning_rate_shrink_factor := 1, iterations_without_progress_threshold := 2000,
              test_iterations_without_progress_threshold := 500,
              learning_rate_schedule := [] },
          train_cnt := 0, best := ⟨0, 0⟩, log := [] } = some s1 ∧
      s1.trainer.train_one_step_calls = 200 := by
  obtain ⟨s1, h1, h2, _⟩ := resume_at_150_finishes_warmup
    ({ learning_rate := 1 / 1000, min_learning_rate := 1 / 1000000, patience := 3,
       cosine_epochs := 0, warmup_epochs := 2, test_period := 0, num_test_images := 0,
       mini_batch_size := 8 } : config ℚ)
    { trainer :=
        { train_one_step_calls := 150, test_one_step_calls := 0,
          learning_rate := 3 / 4000, min_learning_rate := 1 / 100000,
          learning_rate_shrink_factor := 1, iterations_without_progress_threshold := 2000,
          test_iterations_without_progress_threshold := 500,
          learning_rate_schedule := [] },
      train_cnt := 0, best := ⟨0, 0⟩, log := [] } 100 rfl rfl (by decide) (by decide)
  exact ⟨s1, h1, h2⟩

/-! ### Learning-rate schedules -/

theorem linspace_length {K : Type} [Field K] (a b : K) (n : Nat) :
    (linspace a b n).length = n := by
  simp [linspace]

theorem linspace_getElem? {K : Type} [Field K] (a b : K) (n c : Nat) (hc : c < n) :
    (linspace a b n)[c]? =
      some (if c + 1 = n then b else a + (c : K) * (b - a) / ((n : K) - 1)) := by
  simp [linspace, List.getElem?_map, List.getElem?_range hc]

theorem cosine_steps_no_wrap {K : Type} (cfg : config K) (steps_per_epoch : Nat)
    (hmax : cfg.cosine_epochs * steps_per_epoch < 2 ^ 64)
    (hle : cfg.warmup_epochs * steps_per_epoch ≤ cfg.cosine_epochs * steps_per_epoch) :
    cosine_steps cfg steps_per_epoch
      = cfg.cosine_epochs * steps_per_epoch - cfg.warmup_epochs * steps_per_epoch := by
  simp only [cosine_steps, warmup_steps, size_t_sub, size_t_mul, size_t_mod]
  generalize cfg.cosine_epochs * steps_per_epoch = a at *
  generalize cfg.warmup_epochs * steps_per_epoch = b at *
  norm_num at hmax ⊢
  omega

theorem cosine_schedule_getElem? {K : Type} [LinearOrderedField K] (cos : K → K) (pi : K)
    (lr min_lr : K) (n i : Nat) (hi : i < n) (hn : 2 ≤ n) :
    (cosine_schedule cos pi lr min_lr n)[i]? =
      some (min_lr + 1 / 2 * (lr - min_lr) * (1 + cos (pi * (i : K) / ((n : K) - 1)))) := by
  have hn0 : (n : K) ≠ 0 := by
    have : 0 < n := by omega
    exact_mod_cast this.ne'
  have hn1 : (n : K) - 1 ≠ 0 := by
    have : (2 : K) ≤ (n : K) := by exact_mod_cast hn
    intro h
    linarith
  have harg : (if i + 1 = n then (n : K) else 0 + (i : K) * ((n : K) - 0) / ((n : K) - 1))
      * pi / (n : K) = pi * (i : K) / ((n : K) - 1) := by
    split_ifs with h
    · have hc : (n : K) - 1 = (i : K) := by
        rw [← h]
        push_cast
        ring
      rw [← hc]
      field_simp
    · field_simp
      ring
  simp only [cosine_schedule, List.getElem?_map, linspace_getElem? _ _ _ _ hi, Option.map_some']
  rw [harg]

/-- C5, as stated, fails. With `cosine_epochs = 1`, no warm-up and two steps per epoch the
schedule has `T = 2` entries and the entry at `t = 1` is `min_lr = 1e-6`, while the
formula of the claim gives `min_lr + 0.5 * (base_lr - min_lr) * (1 + cos (π * 1 / 2))`,
the midpoint. And with `cosine_epochs = 1`, `warmup_epochs = 3` and 100 steps per epoch the
`size_t` difference is `2 ^ 64 - 200`, not `1 * 100 - 3 * 100`. -/
theorem cosine_entry_counterexample :
    cosine_steps
        ({ learning_rate := 1 / 1000, min_learning_rate := 1 / 1000000,
           patience := 3, cosine_epochs := 1, warmup_epochs := 0, test_period := 0,
           num_test_images := 0, mini_batch_size := 8 } : config ℝ) 2 = 2 ∧
      (post_warmup_setup Real.cos Real.pi
        ({ learning_rate := 1 / 1000, min_learning_rate := 1 / 1000000,
           patience := 3, cosine_epochs := 1, warmup_epochs := 0, test_period := 0,
           num_test_images := 0, mini_batch_size := 8 } : config ℝ) 2
        { train_one_step_calls := 0, test_one_step_calls := 0, learning_rate := 1 / 100,
          min_learning_rate := 1 / 100000, learning_rate_shrink_factor := 1,
          iterations_without_progress_threshold := 2000,
          test_iterations_without_progress_threshold := 500,
          learning_rate_schedule := [] }).learning_rate_schedule[1]? = some (1 / 1000000) ∧
      (1 / 1000000 : ℝ) ≠
        1 / 1000000 + 1 / 2 * (1 / 1000 - 1 / 1000000) * (1 + Real.cos (Real.pi * 1 / 2)) ∧
      cosine_steps
        ({ learning_rate := 1 / 1000, min_learning_rate := 1 / 1000000,
           patience := 3, cosine_epochs := 1, warmup_epochs := 3, test_period := 0,
           num_test_images := 0, mini_batch_size := 8 } : config ℝ) 100 = 2 ^ 64 - 200 ∧
      ((2 ^ 64 - 200 : Nat) : Int) ≠ 1 * 100 - 3 * 100 := by
  refine ⟨by decide, ?_, ?_, by decide, by decide⟩
  · have hsteps : cosine_steps
        ({ learning_rate := 1 / 1000, min_learning_rate := 1 / 1000000,
           patience := 3, cosine_epochs := 1, warmup_epochs := 0, test_period := 0,
           num_test_images := 0, mini_batch_size := 8 } : config ℝ) 2 = 2 := by decide
    have hws : warmup_steps
        ({ learning_rate := 1 / 1000, min_learning_rate := 1 / 1000000,
           patience := 3, cosine_epochs := 1, warmup_epochs := 0, test_period := 0,
           num_test_images := 0, mini_batch_size := 8 } : config ℝ) 2 = 0 := by decide
    simp only [post_warmup_setup, hws, cosine_setup, hsteps, if_true, Nat.lt_one_iff,
      gt_iff_lt, Nat.zero_lt_one]
    rw [cosine_schedule_getElem? _ _ _ _ 2 1 (by decide) (by decide)]
    norm_num
  · have h : Real.pi * 1 / 2 = Real.pi / 2 := by ring
    rw [h, Real.cos_pi_div_two]
    norm_num

/-- C5, amended: when `cosine_epochs > 0` and the `size_t` difference does not wrap
(`warmup_steps ≤ cosine_epochs * steps_per_epoch < 2 ^ 64`), the schedule installed after
the warm-up has exactly `T = cosine_epochs * steps_per_epoch - warmup_steps` entries, and
for `T ≥ 2` the entry at `t < T` is
`min_lr + 0.5 * (base_lr - min_lr) * (1 + cos (π * t / (T - 1)))`: the arguments of the
cosine run over `[0, π]` with both ends included. For `T = 1` the one entry is
`min_lr + 0.5 * (base_lr - min_lr) * (1 + cos π)`. -/
theorem cosine_setup_entries {K : Type} [LinearOrderedField K] (cos : K → K) (pi : K)
    (cfg : config K) (steps_per_epoch : Nat) (t : dnn_trainer K)
    (hc : 0 < cfg.cosine_epochs)
    (hreach : t.train_one_step_calls = warmup_steps cfg steps_per_epoch)
    (hmax : cfg.cosine_epochs * steps_per_epoch < 2 ^ 64)
    (hle : cfg.warmup_epochs * steps_per_epoch ≤ cfg.cosine_epochs * steps_per_epoch) :
    cosine_steps cfg steps_per_epoch
        = cfg.cosine_epochs * steps_per_epoch - cfg.warmup_epochs * steps_per_epoch ∧
      (post_warmup_setup cos pi cfg steps_per_epoch t).learning_rate_schedule.length
        = cosine_steps cfg steps_per_epoch ∧
      (2 ≤ cosine_steps cfg steps_per_epoch →
        ∀ i, i < cosine_steps cfg steps_per_epoch →
          (post_warmup_setup cos pi cfg steps_per_epoch t).learning_rate_schedule[i]? =
            some (cfg.min_learning_rate + 1 / 2 * (cfg.learning_rate - cfg.min_learning_rate) *
              (1 + cos (pi * (i : K) / ((cosine_steps cfg steps_per_epoch : K) - 1))))) ∧
      (cosine_steps cfg steps_per_epoch = 1 →
        (post_warmup_setup cos pi cfg steps_per_epoch t).learning_rate_schedule =
          [cfg.min_learning_rate + 1 / 2 * (cfg.learning_rate - cfg.min_learning_rate) *
            (1 + cos pi)]) := by
  have hpost : (post_warmup_setup cos pi cfg steps_per_epoch t).learning_rate_schedule
      = cosine_schedule cos pi cfg.learning_rate cfg.min_learning_rate
          (cosine_steps cfg steps_per_epoch) := by
    simp [post_warmup_setup, hreach, hc, cosine_setup]
  rw [hpost]
  refine ⟨cosine_steps_no_wrap cfg steps_per_epoch hmax hle, ?_, ?_, ?_⟩
  · simp [cosine_schedule, linspace_length]
  · intro h2 i hi
    exact cosine_schedule_getElem? cos pi _ _ _ i hi h2
  · intro h1
    rw [h1]
    simp [cosine_schedule, linspace, List.range_succ]

/-- C5, amended, at a concrete input: one cosine epoch of two steps and no warm-up. -/
theorem cosine_setup_entries_witness :
    (post_warmup_setup Real.cos Real.pi
        ({ learning_rate := 1 / 1000, min_learning_rate := 1 / 1000000,
           patience := 3, cosine_epochs := 1, warmup_epochs := 0, test_period := 0,
           num_test_images := 0, mini_batch_size := 8 } : config ℝ) 2
        { train_one_step_calls := 0, test_one_step_calls := 0, learning_rate := 1 / 100,
          min_learning_rate := 1 / 100000, learning_rate_shrink_factor := 1,
          iterations_without_progress_threshold := 2000,
          test_iterations_without_progress_threshold := 500,
          learning_rate_schedule := [] }).learning_rate_schedule.length
      = cosine_steps
          ({ learning_rate := 1 / 1000, min_learning_rate := 1 / 1000000,
             patience := 3, cosine_epochs := 1, warmup_epochs := 0, test_period := 0,
             num_test_images := 0, mini_batch_size := 8 } : config ℝ) 2 :=
  (cosine_setup_entries Real.cos Real.pi
    ({ learning_rate := 1 / 1000, min_learning_rate := 1 / 1000000,
       patience := 3, cosine_epochs := 1, warmup_epochs := 0, test_period := 0,
       num_test_images := 0, mini_batch_size := 8 } : config ℝ) 2
    { train_one_step_calls := 0, test_one_step_calls := 0, learning_rate := 1 / 100,
      min_learning_rate := 1 / 100000, learning_rate_shrink_factor := 1,
      iterations_without_progress_threshold := 2000,
      test_iterations_without_progress_threshold := 500,
      learning_rate_schedule := [] } (by decide) (by decide) (by decide) (by decide)).2.1

/-! ### The step function with its queues -/

theorem dequeue_batch_some {K : Type} (n : Nat) :
    ∀ (q : List (sample K)) (images : List rgb_image) (bboxes : List (List (yolo_rect K))),
      images.length ≤ n → n - images.length ≤ q.length →
      dequeue_batch n q images bboxes
        = some (q.drop (n - images.length),
            images ++ (q.take (n - images.length)).map sample.first,
            bboxes ++ (q.take (n - images.length)).map sample.second) := by
  intro q
  induction q with
  | nil =>
    intro images bboxes h1 h2
    have h3 : n - images.length = 0 := by simpa using h2
    have h4 : ¬ images.length < n := by omega
    simp [dequeue_batch, h3, h4]
  | cons smp rest ih =>
    intro images bboxes h1 h2
    by_cases hlt : images.length < n
    · have hlen : (images ++ [smp.first]).length = images.length + 1 := by simp
      have hsub : n - images.length = (n - (images.length + 1)) + 1 := by omega
      have h5 : n - (images.length + 1) ≤ rest.length := by
        simp only [List.length_cons] at h2
        omega
      rw [dequeue_batch, if_pos hlt,
        ih (images ++ [smp.first]) (bboxes ++ [smp.second]) (by rw [hlen]; omega)
          (by rw [hlen]; exact h5), hlen, hsub]
      simp
    · have h3 : n - images.length = 0 := by omega
      simp [dequeue_batch, hlt, h3]

theorem dequeue_batch_none {K : Type} (n : Nat) :
    ∀ (q : List (sample K)) (images : List rgb_image) (bboxes : List (List (yolo_rect K))),
      q.length < n - images.length → dequeue_batch n q images bboxes = none := by
  intro q
  induction q with
  | nil =>
    intro images bboxes h
    have h4 : images.length < n := by omega
    simp [dequeue_batch, h4]
  | cons smp rest ih =>
    intro images bboxes h
    have hlt : images.length < n := by omega
    rw [dequeue_batch, if_pos hlt]
    apply ih
    simp only [List.length_cons, List.length_append, List.length_nil] at h ⊢
    omega

theorem dequeue_batch_fresh {K : Type} (n : Nat) (q : List (sample K)) (h : n ≤ q.length) :
    dequeue_batch n q [] []
      = some (q.drop n, (q.take n).map sample.first, (q.take n).map sample.second) := by
  have := dequeue_batch_some n q [] [] (by simp) (by simpa using h)
  simpa using this

theorem dequeue_batch_fresh_none {K : Type} (n : Nat) (q : List (sample K))
    (h : q.length < n) : dequeue_batch n q ([] : List rgb_image) [] = none :=
  dequeue_batch_none n q [] [] (by simpa using h)

/-- The call of `train` that takes the training branch, on a pipe that delivers a batch. -/
theorem train_batch_train_branch {K : Type} (n tp : Nat) (s : step_state K)
    (hb : takes_test_branch tp s.loop.train_cnt = false) (hq : n ≤ s.train_data.length) :
    ∃ s1, train_batch n tp s = some s1 ∧
      s1.images = (s.train_data.take n).map sample.first ∧
      s1.bboxes = (s.train_data.take n).map sample.second ∧
      s1.train_data = s.train_data.drop n ∧ s1.test_data = s.test_data ∧
      s1.handed = s.handed ++
        [{ test := false, images := (s.train_data.take n).map sample.first,
           bboxes := (s.train_data.take n).map sample.second }] ∧
      s1.loop = train tp s.loop := by
  unfold train_batch train
  by_cases h0 : tp = 0
  · simp [h0, dequeue_batch_fresh n s.train_data hq]
  · have h1 : (s.loop.train_cnt + 1) % tp ≠ 0 := by
      simpa [takes_test_branch, h0] using hb
    simp [h0, h1, dequeue_batch_fresh n s.train_data hq]

/-- The call of `train` that takes the test branch, on a pipe that delivers a batch. -/
theorem train_batch_test_branch {K : Type} (n tp : Nat) (s : step_state K)
    (hb : takes_test_branch tp s.loop.train_cnt = true) (hq : n ≤ s.test_data.length) :
    ∃ s1, train_batch n tp s = some s1 ∧
      s1.images = (s.test_data.take n).map sample.first ∧
      s1.bboxes = (s.test_data.take n).map sample.second ∧
      s1.test_data = s.test_data.drop n ∧ s1.train_data = s.train_data ∧
      s1.handed = s.handed ++
        [{ test := true, images := (s.test_data.take n).map sample.first,
           bboxes := (s.test_data.take n).map sample.second }] ∧
      s1.loop = train tp s.loop := by
  have h0 : tp ≠ 0 := by
    intro h
    simp [takes_test_branch, h] at hb
  have h1 : (s.loop.train_cnt + 1) % tp = 0 := by
    simpa [takes_test_branch, h0] using hb
  unfold train_batch train
  simp [h0, h1, dequeue_batch_fresh n s.test_data hq]

/-- A call of `train` on a pipe that delivers less than a batch does not return. -/
theorem train_batch_blocks {K : Type} (n tp : Nat) (s : step_state K)
    (hq : (if takes_test_branch tp s.loop.train_cnt then s.test_data
      else s.train_data).length < n) :
    train_batch n tp s = none := by
  unfold train_batch
  by_cases h0 : tp = 0
  · have hb : takes_test_branch tp s.loop.train_cnt = false := by
      simp [takes_test_branch, h0]
    rw [hb] at hq
    simp [h0, dequeue_batch_fresh_none n s.train_data (by simpa using hq)]
  · by_cases h1 : (s.loop.train_cnt + 1) % tp = 0
    · have hb : takes_test_branch tp s.loop.train_cnt = true := by
        simp [takes_test_branch, h0, h1]
      rw [hb] at hq
      simp [h0, h1, dequeue_batch_fresh_none n s.test_data (by simpa using hq)]
    · have hb : takes_test_branch tp s.loop.train_cnt = false := by
        simp [takes_test_branch, h0, h1]
      rw [hb] at hq
      simp [h0, h1, dequeue_batch_fresh_none n s.train_data (by simpa using hq)]

/-- C12: for every mini-batch size `n`, a call of `train` whose pipe (the test pipe in
the test branch, the training pipe otherwise) delivers `n` samples returns after dequeuing
exactly `n` samples from that pipe alone, and hands the trainer `images` and `bboxes` of
length exactly `n` in which position `i` holds the image and the boxes of the `i`-th
dequeued sample; what `images` and `bboxes` held before the call is gone. A pipe that
delivers fewer than `n` samples makes the call wait: no shorter batch is handed over. -/
theorem train_batch_hands_batch {K : Type} (n tp : Nat) (s : step_state K) :
    (takes_test_branch tp s.loop.train_cnt = false →
      (n ≤ s.train_data.length →
        ∃ s1, train_batch n tp s = some s1 ∧
          s1.images.length = n ∧ s1.bboxes.length = n ∧
          (∀ i, i < n → ∃ smp, s.train_data[i]? = some smp ∧
            s1.images[i]? = some smp.first ∧ s1.bboxes[i]? = some smp.second) ∧
          s1.handed = s.handed ++ [{ test := false, images := s1.images, bboxes := s1.bboxes }] ∧
          s1.train_data = s.train_data.drop n ∧ s1.test_data = s.test_data) ∧
      (s.train_data.length < n → train_batch n tp s = none)) ∧
    (takes_test_branch tp s.loop.train_cnt = true →
      (n ≤ s.test_data.length →
        ∃ s1, train_batch n tp s = some s1 ∧
          s1.images.length = n ∧ s1.bboxes.length = n ∧
          (∀ i, i < n → ∃ smp, s.test_data[i]? = some smp ∧
            s1.images[i]? = some smp.first ∧ s1.bboxes[i]? = some smp.second) ∧
          s1.handed = s.handed ++ [{ test := true, images := s1.images, bboxes := s1.bboxes }] ∧
          s1.test_data = s.test_data.drop n ∧ s1.train_data = s.train_data) ∧
      (s.test_data.length < n → train_batch n tp s = none)) := by
  have key : ∀ (q : List (sample K)) (i : Nat), n ≤ q.length → i < n →
      ∃ smp, q[i]? = some smp ∧ ((q.take n).map sample.first)[i]? = some smp.first ∧
        ((q.take n).map sample.second)[i]? = some smp.second := by
    intro q i hq hi
    have hiq : i < q.length := by omega
    refine ⟨q[i], List.getElem?_eq_getElem hiq, ?_, ?_⟩
    · simp [List.getElem?_map, List.getElem?_take, hi, List.getElem?_eq_getElem hiq]
    · simp [List.getElem?_map, List.getElem?_take, hi, List.getElem?_eq_getElem hiq]
  constructor
  · intro hb
    constructor
    · intro hq
      obtain ⟨s1, e, e1, e2, e3, e4, e5, _⟩ := train_batch_train_branch n tp s hb hq
      refine ⟨s1, e, ?_, ?_, ?_, ?_, e3, e4⟩
      · rw [e1]
        simp [hq]
      · rw [e2]
        simp [hq]
      · intro i hi
        rw [e1, e2]
        exact key s.train_data i hq hi
      · rw [e5, e1, e2]
    · intro hq
      exact train_batch_blocks n tp s (by rw [hb]; simpa using hq)
  · intro hb
    constructor
    · intro hq
      obtain ⟨s1, e, e1, e2, e3, e4, e5, _⟩ := train_batch_test_branch n tp s hb hq
      refine ⟨s1, e, ?_, ?_, ?_, ?_, e3, e4⟩
      · rw [e1]
        simp [hq]
      · rw [e2]
        simp [hq]
      · intro i hi
        rw [e1, e2]
        exact key s.test_data i hq hi
      · rw [e5, e1, e2]
    · intro hq
      exact train_batch_blocks n tp s (by rw [hb]; simpa using hq)

theorem train_batch_train_cnt {K : Type} (n tp : Nat) (s s1 : step_state K)
    (h : train_batch n tp s = some s1) :
    s1.loop.train_cnt = if tp = 0 then s.loop.train_cnt else s.loop.train_cnt + 1 := by
  by_cases hb : takes_test_branch tp s.loop.train_cnt = true
  · have h0 : tp ≠ 0 := by
      intro h0
      simp [takes_test_branch, h0] at hb
    have h1 : (s.loop.train_cnt + 1) % tp = 0 := by
      simpa [takes_test_branch, h0] using hb
    by_cases hq : n ≤ s.test_data.length
    · obtain ⟨s2, e, _, _, _, _, _, e6⟩ := train_batch_test_branch n tp s hb hq
      rw [h] at e
      cases e
      rw [e6, if_neg h0]
      exact (train_test_step tp s.loop h0 h1).2.2.2.2
    · rw [train_batch_blocks n tp s (by rw [hb]; simpa using hq)] at h
      cases h
  · have hb2 : takes_test_branch tp s.loop.train_cnt = false := by simpa using hb
    by_cases hq : n ≤ s.train_data.length
    · obtain ⟨s2, e, _, _, _, _, _, e6⟩ := train_batch_train_branch n tp s hb2 hq
      rw [h] at e
      cases e
      rw [e6]
      by_cases h0 : tp = 0
      · simp [h0, train, do_train_one_step]
      · rw [if_neg h0]
        have h1 : (s.loop.train_cnt + 1) % tp ≠ 0 := by
          simpa [takes_test_branch, h0] using hb2
        exact (train_train_step tp s.loop (Or.inr h1)).2.2.2.2 h0
    · rw [train_batch_blocks n tp s (by rw [hb2]; simpa using hq)] at h
      cases h

/-- After `j` calls of `train` the static counter has grown by `j` when `test_period` is
not zero, and has not moved when it is zero. -/
theorem train_batches_train_cnt {K : Type} (n tp : Nat) (s0 : step_state K) :
    ∀ (j : Nat) (s : step_state K), train_batches n tp j s0 = some s →
      s.loop.train_cnt = if tp = 0 then s0.loop.train_cnt else s0.loop.train_cnt + j := by
  intro j
  induction j with
  | zero =>
    intro s h
    simp only [train_batches, Option.some.injEq] at h
    subst h
    simp
  | succ j ih =>
    intro s h
    simp only [train_batches, Option.bind_eq_some] at h
    obtain ⟨s2, h2, h3⟩ := h
    rw [train_batch_train_cnt n tp s2 s h3, ih s2 h2]
    by_cases h0 : tp = 0
    · simp [h0]
    · simp [h0]
      omega

/-- C11: for every `test_period` and every `k ≥ 1`, the `k`-th call of `train` in a
process (the static counter starts at zero) takes the test branch if and only if
`test_period > 0` and `test_period` divides `k`. In that case, the test pipe delivering a
batch, the call is a `test_one_step` on the batch drawn from the test pipe and the training
pipe is not touched; otherwise, the training pipe delivering a batch, it is a
`train_one_step` on the batch drawn from the training pipe and the test pipe is not
touched. With `test_period = 0` no call takes the test branch and no test loader thread
is started. -/
theorem kth_call_test_iff_divides {K : Type} (n tp k : Nat) (s0 s : step_state K)
    (hk : 1 ≤ k) (h0 : s0.loop.train_cnt = 0)
    (hprev : train_batches n tp (k - 1) s0 = some s) :
    (takes_test_branch tp s.loop.train_cnt = true ↔ (tp > 0 ∧ tp ∣ k)) ∧
      ((tp > 0 ∧ tp ∣ k) → n ≤ s.test_data.length →
        ∃ s1, train_batches n tp k s0 = some s1 ∧
          s1.loop.log = s.loop.log ++ [event.test_one_step] ∧
          s1.handed = s.handed ++
            [{ test := true, images := (s.test_data.take n).map sample.first,
               bboxes := (s.test_data.take n).map sample.second }] ∧
          s1.test_data = s.test_data.drop n ∧ s1.train_data = s.train_data ∧
          s1.loop.trainer.train_one_step_calls = s.loop.trainer.train_one_step_calls) ∧
      (¬ (tp > 0 ∧ tp ∣ k) → n ≤ s.train_data.length →
        ∃ s1, train_batches n tp k s0 = some s1 ∧
          s1.loop.log = s.loop.log ++ [event.train_one_step] ∧
          s1.handed = s.handed ++
            [{ test := false, images := (s.train_data.take n).map sample.first,
               bboxes := (s.train_data.take n).map sample.second }] ∧
          s1.train_data = s.train_data.drop n ∧ s1.test_data = s.test_data ∧
          s1.loop.trainer.train_one_step_calls
            = s.loop.trainer.train_one_step_calls + 1) ∧
      (num_test_data_loaders tp = 0 ↔ tp = 0) := by
  have hcnt := train_batches_train_cnt n tp s0 (k - 1) s hprev
  have hk1 : k - 1 + 1 = k := by omega
  have hrun : train_batches n tp k s0 = train_batch n tp s := by
    rw [← hk1, train_batches, hprev]
    rfl
  have hiff : takes_test_branch tp s.loop.train_cnt = true ↔ (tp > 0 ∧ tp ∣ k) := by
    by_cases htp : tp = 0
    · simp [takes_test_branch, htp]
    · rw [hcnt, if_neg htp, h0]
      have hpos : tp > 0 := Nat.pos_of_ne_zero htp
      simp only [takes_test_branch, Bool.and_eq_true, decide_eq_true_eq, zero_add, hk1]
      constructor
      · rintro ⟨_, h⟩
        exact ⟨hpos, Nat.dvd_of_mod_eq_zero h⟩
      · rintro ⟨_, h⟩
        exact ⟨htp, Nat.mod_eq_zero_of_dvd h⟩
  refine ⟨hiff, ?_, ?_, ?_⟩
  · intro hd hq
    have hb : takes_test_branch tp s.loop.train_cnt = true := hiff.mpr hd
    have htp : tp ≠ 0 := by omega
    have hmod : (s.loop.train_cnt + 1) % tp = 0 := by
      simpa [takes_test_branch, htp] using hb
    obtain ⟨s1, e, _, _, e3, e4, e5, e6⟩ := train_batch_test_branch n tp s hb hq
    obtain ⟨c1, _, _, c4, _⟩ := train_test_step tp s.loop htp hmod
    exact ⟨s1, by rw [hrun, e], by rw [e6, c4], e5, e3, e4, by rw [e6, c1]⟩
  · intro hd hq
    have hb : takes_test_branch tp s.loop.train_cnt = false := by
      by_contra hne
      exact hd (hiff.mp (by simpa using hne))
    have hstep : tp = 0 ∨ (s.loop.train_cnt + 1) % tp ≠ 0 := by
      by_cases htp : tp = 0
      · exact Or.inl htp
      · right
        simpa [takes_test_branch, htp] using hb
    obtain ⟨s1, e, _, _, e3, e4, e5, e6⟩ := train_batch_train_branch n tp s hb hq
    obtain ⟨c1, _, _, c4, _⟩ := train_train_step tp s.loop hstep
    exact ⟨s1, by rw [hrun, e], by rw [e6, c4], e5, e3, e4, by rw [e6, c1]⟩
  · unfold num_test_data_loaders
    by_cases htp : tp = 0
    · simp [htp]
    · have : tp > 0 := Nat.pos_of_ne_zero htp
      simp [this, htp]

/-- C11, at a concrete input: with `test_period = 2` and batches of one sample, the second
call of `train` takes the test branch. -/
theorem kth_call_test_iff_divides_witness :
    takes_test_branch 2
        (do_train_one_step
          { trainer :=
              { train_one_step_calls := 0, test_one_step_calls := 0,
                learning_rate := (1 : ℚ) / 1000, min_learning_rate := 1 / 100000,
                learning_rate_shrink_factor := 1, iterations_without_progress_threshold := 6,
                test_iterations_without_progress_threshold := 6,
                learning_rate_schedule := [] },
            train_cnt := 1, best := ⟨0, 0⟩, log := [] }).train_cnt = true ↔
      (2 > 0 ∧ 2 ∣ 2) :=
  (kth_call_test_iff_divides 1 2 2
    { loop :=
        { trainer :=
            { train_one_step_calls := 0, test_one_step_calls := 0,
              learning_rate := (1 : ℚ) / 1000, min_learning_rate := 1 / 100000,
              learning_rate_shrink_factor := 1, iterations_without_progress_threshold := 6,
              test_iterations_without_progress_threshold := 6,
              learning_rate_schedule := [] },
          train_cnt := 0, best := ⟨0, 0⟩, log := [] },
      images := [], bboxes := [],
      train_data := [{ first := ⟨1, 1, [⟨1, 2, 3⟩]⟩, second := [] }],
      test_data := [{ first := ⟨1, 1, [⟨4, 5, 6⟩]⟩, second := [] }],
      handed := [] }
    { loop :=
        do_train_one_step
          { trainer :=
              { train_one_step_calls := 0, test_one_step_calls := 0,
                learning_rate := (1 : ℚ) / 1000, min_learning_rate := 1 / 100000,
                learning_rate_shrink_factor := 1, iterations_without_progress_threshold := 6,
                test_iterations_without_progress_threshold := 6,
                learning_rate_schedule := [] },
            train_cnt := 1, best := ⟨0, 0⟩, log := [] },
      images := [⟨1, 1, [⟨1, 2, 3⟩]⟩], bboxes := [[]],
      train_data := [],
      test_data := [{ first := ⟨1, 1, [⟨4, 5, 6⟩]⟩, second := [] }],
      handed := [{ test := false, images := [⟨1, 1, [⟨1, 2, 3⟩]⟩], bboxes := [[]] }] }
    (by decide) rfl rfl).1

/-! ### Reading the minimum coverage -/

/-- The value read at line 107 does not depend on what the command line gives to
`--coverage`. -/
theorem min_coverage_ignores_coverage {K : Type} [Field K] (c : command_line K)
    (v : Option K) : min_coverage { c with coverage := v } = min_coverage c := by
  have h : "min-coverage" ∉ declared_options := by decide
  simp [min_coverage, get_option, h]

/-- C14, the failing input: the command line `--coverage 0.9` passes the option checks,
`coverage` is an option of the parser and `min-coverage`, the name read at line 107, is
not: the lookup fails, and in no case does it yield the `0.9` given by the user. -/
theorem coverage_option_not_read :
    option_checks ({ no_options ℚ with coverage := some (9 / 10) }) = Except.ok () ∧
      "coverage" ∈ declared_options ∧ "min-coverage" ∉ declared_options ∧
      min_coverage ({ no_options ℚ with coverage := some (9 / 10) })
        = Except.error (fatal_error.undefined_option "min-coverage") ∧
      min_coverage ({ no_options ℚ with coverage := some (9 / 10) }) ≠ Except.ok (9 / 10) ∧
      min_coverage ({ no_options ℚ with coverage := some (9 / 10) })
        = min_coverage (no_options ℚ) := by
  have h : "min-coverage" ∉ declared_options := by decide
  have hm : ∀ c : command_line ℚ,
      min_coverage c = Except.error (fatal_error.undefined_option "min-coverage") := by
    intro c
    simp [min_coverage, get_option, h]
  refine ⟨?_, by decide, h, hm _, ?_, ?_⟩
  · have h1 : option_checks ({ no_options ℚ with coverage := some (9 / 10) })
        = check_option_arg_range "coverage" (some (9 / 10 : ℚ)) 0 1 >>=
          fun _ => Except.ok () := rfl
    have h2 : check_option_arg_range "coverage" (some (9 / 10 : ℚ)) 0 1 = Except.ok () := by
      simp only [check_option_arg_range]
      norm_num
    rw [h1, h2]
    rfl
  · rw [hm]
    simp
  · rw [hm, hm]

/-! ### Runs of the main loop -/

theorem main_loop_iteration_no_test {K : Type} [LinearOrder K] (spe : Nat)
    (m : metrics_details K) (s s1 : loop_state K)
    (h : main_loop_iteration 0 spe m s = some s1) :
    s1.trainer.train_one_step_calls = s.trainer.train_one_step_calls + 1 ∧
      evaluations s1.log = evaluations s.log ++
        (if s.trainer.train_one_step_calls > 0 ∧ s.trainer.train_one_step_calls % spe = 0
          then [s.trainer.train_one_step_calls] else []) := by
  unfold main_loop_iteration epoch_boundary at h
  by_cases h0 : s.trainer.train_one_step_calls > 0
  · by_cases hs : spe = 0
    · simp [h0, hs] at h
    · by_cases hm : s.trainer.train_one_step_calls % spe = 0
      · simp only [h0, hs, hm, if_true, if_false, decide_True, Option.some.injEq] at h
        subst h
        refine ⟨?_, ?_⟩
        · simp [train, do_train_one_step, evaluation_block]
        · simp [evaluations_train, evaluations_evaluation_block, h0, hm]
      · simp only [h0, hs, hm, if_true, if_false, decide_False, Option.some.injEq] at h
        subst h
        refine ⟨?_, ?_⟩
        · simp [train, do_train_one_step]
        · simp [evaluations_train, hm]
  · simp only [h0, if_false, Option.some.injEq] at h
    subst h
    refine ⟨?_, ?_⟩
    · simp [train, do_train_one_step]
    · simp [evaluations_train, h0]

/-- Without test steps (`test_period = 0`) every iteration of the main loop is one
training step, so the step counts at which a run evaluates are strictly increasing. -/
theorem main_loop_run_no_test_increasing {K : Type} [LinearOrder K] (spe : Nat) :
    ∀ (ms : List (metrics_details K)) (s s1 : loop_state K),
      main_loop_run 0 spe ms s = some s1 →
      s1.trainer.train_one_step_calls = s.trainer.train_one_step_calls + ms.length ∧
        ∃ l, evaluations s1.log = evaluations s.log ++ l ∧ l.Pairwise (· < ·) ∧
          ∀ x ∈ l, s.trainer.train_one_step_calls ≤ x := by
  intro ms
  induction ms with
  | nil =>
    intro s s1 h
    simp only [main_loop_run, Option.some.injEq] at h
    subst h
    exact ⟨by simp, [], by simp, List.Pairwise.nil, by simp⟩
  | cons m ms ih =>
    intro s s1 h
    simp only [main_loop_run, Option.bind_eq_some] at h
    obtain ⟨s2, h2, h3⟩ := h
    obtain ⟨c1, c2⟩ := main_loop_iteration_no_test spe m s s2 h2
    obtain ⟨d1, l, d2, d3, d4⟩ := ih s2 s1 h3
    refine ⟨by rw [d1, c1, List.length_cons]; omega, ?_⟩
    refine ⟨(if s.trainer.train_one_step_calls > 0 ∧ s.trainer.train_one_step_calls % spe = 0
      then [s.trainer.train_one_step_calls] else []) ++ l, ?_, ?_, ?_⟩
    · rw [d2, c2, List.append_assoc]
    · rw [List.pairwise_append]
      refine ⟨?_, d3, ?_⟩
      · split_ifs
        · exact List.pairwise_singleton _ _
        · exact List.Pairwise.nil
      · intro a ha b hb
        have hb2 := d4 b hb
        split_ifs at ha
        · simp only [List.mem_singleton] at ha
          omega
        · simp at ha
    · intro x hx
      rcases List.mem_append.mp hx with hx | hx
      · split_ifs at hx
        · simp only [List.mem_singleton] at hx
          omega
        · simp at hx
      · have := d4 x hx
        omega

/-- C15, the failing input: with `test_period = 2`, two steps per epoch and no warm-up
epoch, the first five iterations of the main loop on a fresh trainer do the steps train,
test, train, test, train, and evaluate twice at the step count 2: the fourth iteration evaluates and then
does a test step, which leaves the steps taken at 2, so the fifth evaluates again. -/
theorem evaluation_repeated_after_test_step :
    (main_loop_run 2 2
        [(⟨0, 0⟩ : metrics_details ℚ), ⟨0, 0⟩, ⟨0, 0⟩, ⟨0, 0⟩, ⟨0, 0⟩]
        { trainer :=
            { train_one_step_calls := 0, test_one_step_calls := 0,
              learning_rate := 1 / 1000, min_learning_rate := 1 / 1000000,
              learning_rate_shrink_factor := 1 / 10,
              iterations_without_progress_threshold := 12,
              test_iterations_without_progress_threshold := 3,
              learning_rate_schedule := [] },
          train_cnt := 0, best := ⟨0, 0⟩, log := [] }).map
        (fun s => (s.log, evaluations s.log, s.trainer.train_one_step_calls))
      = some ([event.train_one_step, event.test_one_step, event.train_one_step,
          event.evaluation 2, event.test_one_step, event.evaluation 2,
          event.train_one_step], [2, 2], 3) ∧
      ¬ ([2, 2] : List Nat).Pairwise (· < ·) := by
  refine ⟨?_, by decide⟩
  simp [main_loop_run, main_loop_iteration, epoch_boundary, train, do_train_one_step,
    do_test_one_step, evaluation_block, checkpoint_block, evaluations, std_max]

theorem num_steps_per_epoch_pos (num_train_images mini_batch_size : Nat)
    (h0 : 0 < mini_batch_size) (h : mini_batch_size ≤ num_train_images) :
    ∃ spe, num_steps_per_epoch num_train_images mini_batch_size = some spe ∧ 0 < spe := by
  refine ⟨num_train_images / mini_batch_size, ?_, Nat.div_pos h h0⟩
  simp [num_steps_per_epoch, Nat.pos_iff_ne_zero.mp h0]

/-- C16, the failing input: a training set of 5 images with the default mini-batch size 8
has `num_steps_per_epoch = 0`; there is no warm-up step then, the first iteration of the
main loop does one training step, and the second evaluates `1 % 0` at line 561. -/
theorem small_dataset_divides_by_zero :
    num_steps_per_epoch 5 8 = some 0 ∧
      warmup_steps
        ({ learning_rate := 1 / 1000, min_learning_rate := 1 / 1000000, patience := 3,
           cosine_epochs := 0, warmup_epochs := 3, test_period := 0, num_test_images := 0,
           mini_batch_size := 8 } : config ℚ) 0 = 0 ∧
      (main_loop_run 0 0 [(⟨0, 0⟩ : metrics_details ℚ)]
        { trainer :=
            { train_one_step_calls := 0, test_one_step_calls := 0,
              learning_rate := 1 / 1000, min_learning_rate := 1 / 1000000,
              learning_rate_shrink_factor := 1 / 10,
              iterations_without_progress_threshold := 0,
              test_iterations_without_progress_threshold := 0,
              learning_rate_schedule := [] },
          train_cnt := 0, best := ⟨0, 0⟩, log := [] }).map
        (fun s => s.trainer.train_one_step_calls) = some 1 ∧
      epoch_boundary 1 0 = none ∧
      main_loop_run 0 0 [(⟨0, 0⟩ : metrics_details ℚ), ⟨0, 0⟩]
        { trainer :=
            { train_one_step_calls := 0, test_one_step_calls := 0,
              learning_rate := 1 / 1000, min_learning_rate := 1 / 1000000,
              learning_rate_shrink_factor := 1 / 10,
              iterations_without_progress_threshold := 0,
              test_iterations_without_progress_threshold := 0,
              learning_rate_schedule := [] },
          train_cnt := 0, best := ⟨0, 0⟩, log := [] } = none := by
  refine ⟨by decide, by decide, ?_, by decide, ?_⟩
  · simp [main_loop_run, main_loop_iteration, epoch_boundary, train, do_train_one_step]
  · simp [main_loop_run, main_loop_iteration, epoch_boundary, train, do_train_one_step]

/-- C17, the failing input: `--cosine-epochs 1` passes the option checks; with the default
three warm-up epochs and 100 steps per epoch the `size_t` difference
`1 * 100 - 3 * 100` wraps to `2 ^ 64 - 200`, which is not the mathematical difference; and
with `cosine_epochs = 3` the difference is zero, not positive. -/
theorem cosine_steps_wraps :
    option_checks ({ no_options ℚ with cosine_epochs := some 1 }) = Except.ok () ∧
      cosine_steps
        ({ learning_rate := 1 / 1000, min_learning_rate := 1 / 1000000, patience := 3,
           cosine_epochs := 1, warmup_epochs := 3, test_period := 0, num_test_images := 0,
           mini_batch_size := 8 } : config ℚ) 100 = 2 ^ 64 - 200 ∧
      ((2 ^ 64 - 200 : Nat) : Int) ≠ 1 * 100 - 3 * 100 ∧
      cosine_steps
        ({ learning_rate := 1 / 1000, min_learning_rate := 1 / 1000000, patience := 3,
           cosine_epochs := 3, warmup_epochs := 3, test_period := 0, num_test_images := 0,
           mini_batch_size := 8 } : config ℚ) 100 = 0 := by
  refine ⟨rfl, by decide, by decide, by decide⟩

/-- The difference of line 518 is the mathematical one, and positive, as soon as the
cosine epochs exceed the warm-up epochs and nothing exceeds `2 ^ 64`. -/
theorem cosine_steps_pos {K : Type} (cfg : config K) (steps_per_epoch : Nat)
    (hspe : 1 ≤ steps_per_epoch) (hlt : cfg.warmup_epochs < cfg.cosine_epochs)
    (hmax : cfg.cosine_epochs * steps_per_epoch < 2 ^ 64) :
    cosine_steps cfg steps_per_epoch
        = cfg.cosine_epochs * steps_per_epoch - cfg.warmup_epochs * steps_per_epoch ∧
      0 < cosine_steps cfg steps_per_epoch := by
  have hle : cfg.warmup_epochs * steps_per_epoch < cfg.cosine_epochs * steps_per_epoch :=
    Nat.mul_lt_mul_of_lt_of_le hlt (le_refl _) (by omega)
  have h := cosine_steps_no_wrap cfg steps_per_epoch hmax hle.le
  exact ⟨h, by rw [h]; omega⟩

end YoloTrain
